import Mathlib

/-! # Coding Pit web: API handlers

A shallow embedding of the serverless API handlers of the site
(`newsletter-subscription.ts`, `contact.ts` and `stripe-session.ts` under `src/pages/_api`)
and theorems about them.

JavaScript strings are sequences of UTF-16 code units, modelled as `List Nat`.
Time values (`Date.now()`) are integers of milliseconds.
-/

namespace CodingPit

/-! ## JavaScript strings -/

/-- A JavaScript string: its sequence of UTF-16 code units. -/
abbrev JsString := List Nat

/-- UTF-16 code units of one Unicode scalar value. -/
def utf16 (c : Char) : List Nat :=
  if c.toNat < 65536 then [c.toNat]
  else [55296 + (c.toNat - 65536) / 1024, 56320 + (c.toNat - 65536) % 1024]

/-- The JavaScript string denoted by a source literal. -/
def lit (s : String) : JsString := s.data.flatMap utf16

/-- ECMAScript `WhiteSpace` and `LineTerminator` code units: what `String.prototype.trim`
strips and what the regular-expression class `\s` matches. -/
def isWhiteSpace (c : Nat) : Bool :=
  c == 9 || c == 10 || c == 11 || c == 12 || c == 13 || c == 32 || c == 160 ||
  c == 5760 || (8192 ≤ c && c ≤ 8202) || c == 8232 || c == 8233 || c == 8239 ||
  c == 8287 || c == 12288 || c == 65279

/-- The method `String.prototype.trimStart`. -/
def trimStart (s : JsString) : JsString := s.dropWhile isWhiteSpace

/-- The method `String.prototype.trimEnd`. -/
def trimEnd (s : JsString) : JsString := (s.reverse.dropWhile isWhiteSpace).reverse

/-- The method `String.prototype.trim`. -/
def trim (s : JsString) : JsString := trimEnd (trimStart s)

/-- The method `String.prototype.substring(start, end)` for non-negative integer arguments:
both are clamped to the length and swapped when `start > end`. -/
def substring (s : JsString) (start stop : Nat) : JsString :=
  let a := min start s.length
  let b := min stop s.length
  (s.drop (min a b)).take (max a b - min a b)

/-- The call `s.replace(/[...]/g, '')` for a character class given as a predicate on code
units: every code unit in the class is removed. -/
def removeClass (cls : Nat → Bool) (s : JsString) : JsString := s.filter (fun c => !cls c)

/-! ## JavaScript values -/

/-- A thrown JavaScript exception. -/
inductive JsError where
  | typeError
  | jsonSyntaxError
  | other (message : JsString)
  deriving DecidableEq

/-- JavaScript values that `JSON.parse` can produce, and `undefined`. A number is kept as its
IEEE-754 binary64 bit pattern. An object is the list of its own properties. -/
inductive JsValue where
  | undefined
  | null
  | bool (b : Bool)
  | number (bits : Nat)
  | string (s : JsString)
  | array (items : List JsValue)
  | object (fields : List (JsString × JsValue))

/-- The abstract operation `ToBoolean`: `undefined`, `null`, `false`, `+0`, `-0`, `NaN` and the
empty string are falsy; a number is `NaN` when its exponent bits are all ones and its fraction
is not zero. -/
def toBoolean : JsValue → Bool
  | .undefined => false
  | .null => false
  | .bool b => b
  | .number bits => bits % 2 ^ 63 != 0 && bits % 2 ^ 63 ≤ 2047 * 2 ^ 52
  | .string s => !s.isEmpty
  | .array _ => true
  | .object _ => true

/-- The `typeof` operator. -/
def typeOf : JsValue → JsString
  | .undefined => lit "undefined"
  | .null => lit "object"
  | .bool _ => lit "boolean"
  | .number _ => lit "number"
  | .string _ => lit "string"
  | .array _ => lit "object"
  | .object _ => lit "object"

/-- Property read `v.key` for the property names the handlers read (`name`, `email`, `asunto`,
`descripcion`, `plan`), none of which is defined on a prototype of a parsed JSON value: reading
from `undefined` or `null` throws a `TypeError`, an object gives its own property or
`undefined`, every other value gives `undefined`. -/
def getProp (v : JsValue) (key : JsString) : Except JsError JsValue :=
  match v with
  | .undefined => .error .typeError
  | .null => .error .typeError
  | .object fields => .ok ((fields.lookup key).getD .undefined)
  | _ => .ok .undefined

/-- Method call `v.trim()`: defined on strings, a `TypeError` on anything else. -/
def callTrim : JsValue → Except JsError JsString
  | .string s => .ok (trim s)
  | _ => .error .typeError

/-! ## Regular expressions of the shape used by `EMAIL_REGEX` -/

/-- One term of a pattern: a character class matched once, or one or more times (`+`). -/
inductive RegexTerm where
  | one (cls : Nat → Bool)
  | plus (cls : Nat → Bool)

/-- Backtracking match of a sequence of terms against the whole input (`^ ... $`); a `+`
term first tries to take one more code unit and then falls back to the next term. -/
def matchTerms : List RegexTerm → JsString → Bool
  | [], [] => true
  | [], _ :: _ => false
  | _ :: _, [] => false
  | .one cls :: ts, c :: s => cls c && matchTerms ts s
  | .plus cls :: ts, c :: s => cls c && (matchTerms (.plus cls :: ts) s || matchTerms ts s)

/-- An HTTP response built by a handler: status, headers, and the value given to
`JSON.stringify` as body. -/
structure Response (β : Type) where
  status : Nat
  headers : List (JsString × JsString)
  body : β
  deriving DecidableEq

namespace Newsletter

/-! ## Rate limiter (`newsletter-subscription.ts`, lines 24-70) -/

/-- Value type of `rateLimitStore`: `{ count: number; resetTime: number }`. -/
structure RateLimitEntry where
  count : Nat
  resetTime : Int
  deriving DecidableEq

/-- The `rateLimitStore` map: client address to entry. -/
abbrev RateLimitStore := JsString → Option RateLimitEntry

/-- The empty map `new Map()`. -/
def emptyStore : RateLimitStore := fun _ => none

/-- The method `Map.prototype.set`. -/
def storeSet (store : RateLimitStore) (key : JsString) (entry : RateLimitEntry) :
    RateLimitStore :=
  fun k => if k = key then some entry else store k

/-- Constant `RATE_LIMIT_WINDOW = 15 * 60 * 1000`. -/
def RATE_LIMIT_WINDOW : Int := 15 * 60 * 1000

/-- Constant `RATE_LIMIT_MAX_REQUESTS = 5`. -/
def RATE_LIMIT_MAX_REQUESTS : Nat := 5

/-- Function `checkRateLimit(clientIP)` with the store and the value of `Date.now()` made explicit.
Returns the boolean result and the store after the call. The first branch is
`!clientData || now > clientData.resetTime`. -/
def checkRateLimit (rateLimitStore : RateLimitStore) (now : Int) (clientIP : JsString) :
    Bool × RateLimitStore :=
  match rateLimitStore clientIP with
  | none =>
    (true, storeSet rateLimitStore clientIP { count := 1, resetTime := now + RATE_LIMIT_WINDOW })
  | some clientData =>
    if now > clientData.resetTime then
      (true, storeSet rateLimitStore clientIP { count := 1, resetTime := now + RATE_LIMIT_WINDOW })
    else if clientData.count ≥ RATE_LIMIT_MAX_REQUESTS then
      (false, rateLimitStore)
    else
      (true, storeSet rateLimitStore clientIP { clientData with count := clientData.count + 1 })

/-- The three-case step as the specification words it (section 4.2, `checkAndConsume`):
no entry or `now > windowResetAt` opens a window of 15 minutes with count 1 and permits;
otherwise `count < 5` increments and permits; otherwise the call is denied. -/
def checkAndConsumeSpec (table : RateLimitStore) (now : Int) (a : JsString) :
    Bool × RateLimitStore :=
  if (table a).all (fun e => decide (now > e.resetTime)) then
    (true, fun k => if k = a then some ⟨1, now + 15 * 60 * 1000⟩ else table k)
  else if (table a).any (fun e => decide (e.count < 5)) then
    (true, fun k => if k = a then (table a).map (fun e => ⟨e.count + 1, e.resetTime⟩) else table k)
  else
    (false, table)

/-- One recorded call of `checkRateLimit`: address, timestamp and the boolean returned. -/
structure CallRecord where
  clientIP : JsString
  now : Int
  permitted : Bool
  deriving DecidableEq

/-- A sequence of `checkRateLimit` calls `(clientIP, now)` run in order from a store; the
record of each call and the final store. -/
def runCalls (store : RateLimitStore) : List (JsString × Int) → List CallRecord × RateLimitStore
  | [] => ([], store)
  | (clientIP, now) :: rest =>
    let r := checkRateLimit store now clientIP
    let tail := runCalls r.2 rest
    ({ clientIP := clientIP, now := now, permitted := r.1 } :: tail.1, tail.2)

/-- Number of permitted calls for address `a` whose timestamp lies in the closed interval
`[lo, hi]`. -/
def permittedIn (a : JsString) (lo hi : Int) (records : List CallRecord) : Nat :=
  records.countP (fun r => decide (r.clientIP = a) && r.permitted && decide (lo ≤ r.now) &&
    decide (r.now ≤ hi))

/-- Proof device for the interval bound: an upper bound, read off the entry of an address, on
the number of calls that can still be permitted inside `[lo, lo + 900000]`. -/
def windowPotential (lo : Int) : Option RateLimitEntry → Nat
  | none => 9
  | some e =>
    if e.resetTime < lo then 9
    else if lo + 900000 ≤ e.resetTime then 5 - e.count
    else (5 - e.count) + 5

/-- Ten calls from one address: one at time 0, four at 899999 (same window), five at 900001
(next window). -/
def burstCalls : List (JsString × Int) :=
  [(lit "10.0.0.1", 0), (lit "10.0.0.1", 899999), (lit "10.0.0.1", 899999),
   (lit "10.0.0.1", 899999), (lit "10.0.0.1", 899999), (lit "10.0.0.1", 900001),
   (lit "10.0.0.1", 900001), (lit "10.0.0.1", 900001), (lit "10.0.0.1", 900001),
   (lit "10.0.0.1", 900001)]

/-! ## Validation, sanitization and the upstream relay (lines 31-139) -/

/-- Constant `LISTMONK_BASE_URL`. -/
def LISTMONK_BASE_URL : JsString := lit "https://codingpit-listmonk.zeabur.app"

/-- Constant `LISTMONK_SUBSCRIPTION_ENDPOINT`. -/
def LISTMONK_SUBSCRIPTION_ENDPOINT : JsString := lit "/subscription/form"

/-- The type `interface SubscriptionResponse { success: boolean; error?: string }`; an absent
`error` is `none`. Also the shape `{ success, error? }` returned by `submitToListmonk`. -/
structure SubscriptionResponse where
  success : Bool
  error : Option JsString
  deriving DecidableEq

/-- Code unit outside `\s` and different from `@`: the class `[^\s@]`. -/
def notSpaceAt (c : Nat) : Bool := !(isWhiteSpace c || c == 64)

/-- Constant `EMAIL_REGEX = /^[^\s@]+@[^\s@]+\.[^\s@]+$/`. -/
def EMAIL_REGEX : List RegexTerm :=
  [.plus notSpaceAt, .one (fun c => c == 64), .plus notSpaceAt, .one (fun c => c == 46),
   .plus notSpaceAt]

/-- The method `RegExp.prototype.test` for a pattern anchored at both ends, without flags. -/
def regexTest (re : List RegexTerm) (s : JsString) : Bool := matchTerms re s

/-- The pattern `^[^\s@]+@[^\s@]+\.[^\s@]+$` read as a language: a non-empty local part, `@`,
a non-empty domain part, `.`, a non-empty last part, every part free of white space and `@`. -/
def MatchesEmailPattern (s : JsString) : Prop :=
  ∃ l d t : JsString, s = l ++ 64 :: (d ++ 46 :: t) ∧ l ≠ [] ∧ d ≠ [] ∧ t ≠ [] ∧
    (∀ c ∈ l, notSpaceAt c = true) ∧ (∀ c ∈ d, notSpaceAt c = true) ∧
    (∀ c ∈ t, notSpaceAt c = true)

/-- Result of `validateInput`: `{ isValid: boolean; errors: string[] }`. -/
structure ValidationResult where
  isValid : Bool
  errors : List JsString
  deriving DecidableEq

/-- The condition `!v || typeof v !== 'string' || v.trim().length === 0`, evaluated left to
right with short circuit. -/
def missingOrBlank (v : JsValue) : Except JsError Bool :=
  if !toBoolean v then .ok true
  else if typeOf v != lit "string" then .ok true
  else (callTrim v).map (fun t => t.length == 0)

/-- The `if / else if` chain on `data.name` of `validateInput`: the messages it pushes. -/
def nameErrors (name : JsValue) : Except JsError (List JsString) :=
  (missingOrBlank name).bind fun missing =>
    if missing then .ok [lit "El nombre es obligatorio"]
    else (callTrim name).map fun t =>
      if t.length > 100 then [lit "El nombre no puede exceder 100 caracteres"] else []

/-- The `if / else if / else if` chain on `data.email` of `validateInput`: the messages it
pushes. -/
def emailErrors (email : JsValue) : Except JsError (List JsString) :=
  (missingOrBlank email).bind fun missing =>
    if missing then .ok [lit "El email es obligatorio"]
    else (callTrim email).map fun t =>
      if !regexTest EMAIL_REGEX t then [lit "El formato del email no es válido"]
      else if t.length > 255 then [lit "El email no puede exceder 255 caracteres"]
      else []

/-- Function `validateInput(data)`; reading a property of `null` or `undefined` throws. -/
def validateInput (data : JsValue) : Except JsError ValidationResult :=
  (getProp data (lit "name")).bind fun name =>
  (nameErrors name).bind fun errors1 =>
  (getProp data (lit "email")).bind fun email =>
  (emailErrors email).bind fun errors2 =>
  .ok { isValid := (errors1 ++ errors2).length == 0, errors := errors1 ++ errors2 }

/-- The class `[<>]`. -/
def isAngle (c : Nat) : Bool := c == 60 || c == 62

/-- Function `sanitizeInput(input)`: `input.trim().replace(/[<>]/g, '').substring(0, 255)`. -/
def sanitizeInput (input : JsString) : JsString :=
  substring (removeClass isAngle (trim input)) 0 255

/-- What `sanitizeInput` is said to compute: the first 255 code units of the trimmed input
with every `<` and `>` removed. -/
def sanitizeSpec (s : JsString) : JsString :=
  ((trim s).filter (fun c => c != 60 && c != 62)).take 255

/-- The request `submitToListmonk` hands to `fetch`. -/
structure FetchRequest where
  url : JsString
  method : JsString
  headers : List (JsString × JsString)
  form : List (JsString × JsString)
  deriving DecidableEq

/-- What the code reads of the upstream `Response`: its status and the outcome of
`response.text()`. -/
structure UpstreamResponse where
  status : Nat
  text : Except JsError JsString

/-- The getter `response.ok`: the status is in the range 200-299. -/
def UpstreamResponse.ok (r : UpstreamResponse) : Bool := 200 ≤ r.status && r.status ≤ 299

/-- Behaviour of the upstream service seen through `fetch`: an error stands for a rejected
promise (network-level failure). -/
abbrev Fetch := FetchRequest → Except JsError UpstreamResponse

/-- The single request `submitToListmonk` sends: the form data `email`, `name`, `l` posted to
the subscription endpoint. -/
def listmonkRequest (name email : JsString) : FetchRequest :=
  let formData := [(lit "email", email), (lit "name", name), (lit "l", lit "newsletter")]
  { url := LISTMONK_BASE_URL ++ LISTMONK_SUBSCRIPTION_ENDPOINT, method := lit "POST",
    headers := [(lit "User-Agent", lit "CodingPit-Newsletter-Subscription/1.0")],
    form := formData }

/-- The body of the `try` block of `submitToListmonk`. -/
def submitToListmonkTry (fetch : Fetch) (name email : JsString) :
    Except JsError SubscriptionResponse :=
  (fetch (listmonkRequest name email)).bind fun response =>
    if !response.ok then
      response.text.bind fun _errorText =>
        if response.status == 409 then
          .ok { success := false, error := some (lit "Ya estás suscrito a nuestra newsletter") }
        else if response.status == 400 then
          .ok { success := false, error := some (lit "Datos de suscripción inválidos") }
        else
          .ok { success := false, error := some (lit "Error al procesar la suscripción") }
    else
      .ok { success := true, error := none }

/-- Function `submitToListmonk(name, email)`: the `try` block with its `catch`. -/
def submitToListmonk (fetch : Fetch) (name email : JsString) :
    Except JsError SubscriptionResponse :=
  match submitToListmonkTry fetch name email with
  | .ok result => .ok result
  | .error _ =>
    .ok { success := false, error := some (lit "Error de conexión. Inténtalo de nuevo más tarde.") }

/-- What a handler invocation receives: the value of `Date.now()` and the upstream. -/
structure Env where
  now : Int
  fetch : Fetch

/-- The request as the handler sees it: `clientAddress` (absent is `none`) and the outcome of
`request.json()`. -/
structure Request where
  clientAddress : Option JsString
  json : Except JsError JsValue

/-- Calls the handler makes after the rate-limit check, in order. -/
inductive Effect where
  | json
  | validateInput
  | sanitizeInput (input : JsString)
  | submitToListmonk (name email : JsString)
  deriving DecidableEq

/-- Outcome of one handler invocation. -/
structure HandlerResult where
  response : Response SubscriptionResponse
  store : RateLimitStore
  log : List Effect

/-- The value of `clientAddress || 'unknown'`. -/
def clientIPOf (request : Request) : JsString :=
  match request.clientAddress with
  | some addr => if addr.isEmpty then lit "unknown" else addr
  | none => lit "unknown"

/-- A JSON response with the single header `Content-Type: application/json`. -/
def jsonResponse (status : Nat) (body : SubscriptionResponse) : Response SubscriptionResponse :=
  { status := status, headers := [(lit "Content-Type", lit "application/json")], body := body }

/-- The response of the outermost `catch`. -/
def internalErrorResponse : Response SubscriptionResponse :=
  jsonResponse 500
    { success := false,
      error := some (lit "Error interno del servidor. Inténtalo de nuevo más tarde.") }

/-- The argument of a `sanitizeInput(requestData.field)` call: the function calls
`input.trim()`, a `TypeError` unless the value is a string. -/
def stringArg (v : JsValue) : Except JsError JsString :=
  match v with
  | .string s => .ok s
  | _ => .error .typeError

/-- The disabled subscription handler (`POST`, lines 141-238), with the store, `Date.now()` and
the upstream made explicit. An exception anywhere inside the outer `try` gives the 500 response
of the outer `catch`. -/
def POST (env : Env) (store : RateLimitStore) (request : Request) : HandlerResult :=
  let clientIP := clientIPOf request
  let limit := checkRateLimit store env.now clientIP
  if !limit.1 then
    { response :=
        { status := 429,
          headers := [(lit "Content-Type", lit "application/json"), (lit "Retry-After", lit "900")],
          body := { success := false,
                    error := some (lit "Demasiadas solicitudes. Inténtalo de nuevo en 15 minutos.") } },
      store := limit.2, log := [] }
  else
    match request.json with
    | .error _ =>
      { response := jsonResponse 400 { success := false, error := some (lit "Formato de datos inválido") },
        store := limit.2, log := [.json] }
    | .ok requestData =>
      match validateInput requestData with
      | .error _ =>
        { response := internalErrorResponse, store := limit.2, log := [.json, .validateInput] }
      | .ok validation =>
        if !validation.isValid then
          { response := jsonResponse 400
              { success := false, error := some ((lit ", ").intercalate validation.errors) },
            store := limit.2, log := [.json, .validateInput] }
        else
          match (getProp requestData (lit "name")).bind stringArg,
                (getProp requestData (lit "email")).bind stringArg with
          | .ok rawName, .ok rawEmail =>
            let sanitizedName := sanitizeInput rawName
            let sanitizedEmail := sanitizeInput rawEmail
            let log := [.json, .validateInput, .sanitizeInput rawName, .sanitizeInput rawEmail,
              .submitToListmonk sanitizedName sanitizedEmail]
            match submitToListmonk env.fetch sanitizedName sanitizedEmail with
            | .ok result =>
              if result.success then
                { response := jsonResponse 200 { success := true, error := none },
                  store := limit.2, log := log }
              else
                { response := jsonResponse 400 { success := false, error := result.error },
                  store := limit.2, log := log }
            | .error _ => { response := internalErrorResponse, store := limit.2, log := log }
          | .ok rawName, .error _ =>
            { response := internalErrorResponse, store := limit.2,
              log := [.json, .validateInput, .sanitizeInput rawName] }
          | .error _, _ =>
            { response := internalErrorResponse, store := limit.2, log := [.json, .validateInput] }

/-! ## Sample inputs -/

/-- An upstream that answers every request with the given status and an empty body. -/
def upstreamStatus (status : Nat) : Fetch := fun _ => .ok { status := status, text := .ok [] }

/-- A handler environment at time 1000 whose upstream accepts every subscription. -/
def sampleEnv : Env := { now := 1000, fetch := upstreamStatus 200 }

/-- A request from `10.0.0.1` whose body is `{name, email}`. -/
def sampleRequest (name email : JsString) : Request :=
  { clientAddress := some (lit "10.0.0.1"),
    json := .ok (.object [(lit "name", .string name), (lit "email", .string email)]) }

/-- A store in which `10.0.0.1` has used its five requests of the window ending at 900000. -/
def exhaustedStore : RateLimitStore :=
  storeSet emptyStore (lit "10.0.0.1") { count := 5, resetTime := 900000 }

end Newsletter

/-! ## Conversions and comparisons used by the contact and checkout handlers -/

mutual
/-- The abstract operation `ToString` on a parsed JSON value, as a template literal applies
it. -/
def jsToString (numberToString : Nat → JsString) : JsValue → Except JsError JsString
  | .undefined => .ok (lit "undefined")
  | .null => .ok (lit "null")
  | .bool b => .ok (if b then lit "true" else lit "false")
  | .number bits => .ok (numberToString bits)
  | .string s => .ok s
  | .array items => joinItems numberToString items
  | .object fields =>
    if (fields.lookup (lit "toString")).isSome then .error .typeError
    else .ok (lit "[object Object]")
/-- The method `Array.prototype.join` with the separator `,`. -/
def joinItems (numberToString : Nat → JsString) : List JsValue → Except JsError JsString
  | [] => .ok []
  | x :: rest =>
    let first : Except JsError JsString :=
      match x with
      | .undefined => .ok []
      | .null => .ok []
      | v => jsToString numberToString v
    first.bind fun sx =>
      if rest.isEmpty then .ok sx
      else (joinItems numberToString rest).bind fun sr => .ok (sx ++ lit "," ++ sr)
end

/-- The comparison `SameValueZero` used by `Array.prototype.includes`, between a parsed value
and an element of an array literal: primitives compare by value (`NaN` equals `NaN`, `+0`
equals `-0`); an object or array is never the same reference as a literal element. -/
def sameValueZero : JsValue → JsValue → Bool
  | .undefined, .undefined => true
  | .null, .null => true
  | .bool a, .bool b => a == b
  | .number a, .number b =>
    a == b || (a % 2 ^ 63 == 0 && b % 2 ^ 63 == 0) ||
      (a % 2 ^ 63 > 2047 * 2 ^ 52 && b % 2 ^ 63 > 2047 * 2 ^ 52)
  | .string a, .string b => a == b
  | _, _ => false

/-- The method `Array.prototype.includes`. -/
def arrayIncludes (items : List JsValue) (v : JsValue) : Bool :=
  items.any fun item => sameValueZero item v

/-! ## Live newsletter handler (`newsletter-subscription.ts`, lines 5-19) -/

namespace Newsletter
namespace Live

/-- The exported handler `POST` of `newsletter-subscription.ts` (lines 5-19): it takes no
argument, reads no state and calls nothing; the store is returned as it was and the log of
calls is empty. -/
def POST (_env : Env) (store : RateLimitStore) (_request : Request) : HandlerResult :=
  { response :=
      { status := 503,
        headers := [(lit "Content-Type", lit "application/json")],
        body := { success := false,
                  error := some (lit "Newsletter functionality is temporarily unavailable") } },
    store := store, log := [] }

end Live
end Newsletter

/-! ## Contact handler (`contact.ts`) -/

namespace Contact

/-- The argument of `resend.emails.send`; `from_` and `to_` stand for the properties `from`
and `to`. -/
structure EmailMessage where
  from_ : JsString
  to_ : List JsString
  subject : JsString
  reply_to : JsValue
  text : JsString

/-- The `error` of a `resend.emails.send` result (`ErrorResponse` of the SDK). -/
structure ErrorResponse where
  message : JsString
  name : JsString

/-- The resolved value `{ data, error }` of `resend.emails.send`; `error` is `null` (here
`none`) on success. -/
structure SendResult where
  data : JsValue
  error : Option ErrorResponse

/-- What a handler invocation receives: the e-mail service (an error stands for a rejected
promise) and the number formatting used by `ToString`. -/
structure Env where
  send : EmailMessage → Except JsError SendResult
  numberToString : Nat → JsString

/-- The request as the handler sees it: the outcome of `request.json()`. -/
structure Request where
  json : Except JsError JsValue

/-- Outcome of one handler invocation: the response and the messages passed to
`resend.emails.send`, in order. -/
structure HandlerResult where
  response : Response JsValue
  sent : List EmailMessage

/-- The response `new Response(JSON.stringify({ error: message }), { status })`; the handler
passes no headers. -/
def errorResponse (status : Nat) (message : JsString) : Response JsValue :=
  { status := status, headers := [], body := .object [(lit "error", .string message)] }

/-- The response `new Response(JSON.stringify({ success: true }), { status: 200 })`. -/
def successResponse : Response JsValue :=
  { status := 200, headers := [], body := .object [(lit "success", .bool true)] }

/-- The object literal of lines 15-21; the template literals apply `ToString` to `asunto`,
`email` and `descripcion` in the order they occur. -/
def buildMessage (numberToString : Nat → JsString) (asunto descripcion email : JsValue) :
    Except JsError EmailMessage :=
  (jsToString numberToString asunto).bind fun subjectAsunto =>
  (jsToString numberToString asunto).bind fun textAsunto =>
  (jsToString numberToString email).bind fun textEmail =>
  (jsToString numberToString descripcion).bind fun textDescripcion =>
  .ok { from_ := lit "Contacto Coding Pit <no-reply@coding-pit.com>",
        to_ := [lit "juanje.cilla@gmail.com"],
        subject := lit "[Contacto] " ++ subjectAsunto,
        reply_to := email,
        text := lit "Asunto: " ++ textAsunto ++ lit "\nEmail: " ++ textEmail ++ lit "\n\n" ++
          textDescripcion }

/-- The body of the `try` block of `POST`: the response or the exception thrown, and the
messages passed to the e-mail service. -/
def POSTTry (env : Env) (request : Request) :
    Except JsError (Response JsValue) × List EmailMessage :=
  match request.json with
  | .error e => (.error e, [])
  | .ok body =>
    match getProp body (lit "asunto"), getProp body (lit "descripcion"),
        getProp body (lit "email") with
    | .ok asunto, .ok descripcion, .ok email =>
      if !toBoolean asunto || !toBoolean descripcion || !toBoolean email then
        (.ok (errorResponse 400 (lit "Faltan campos obligatorios.")), [])
      else
        match buildMessage env.numberToString asunto descripcion email with
        | .error e => (.error e, [])
        | .ok message =>
          match env.send message with
          | .error e => (.error e, [message])
          | .ok result =>
            match result.error with
            | some error => (.ok (errorResponse 500 error.message), [message])
            | none => (.ok successResponse, [message])
    | .error e, _, _ => (.error e, [])
    | _, .error e, _ => (.error e, [])
    | _, _, .error e => (.error e, [])

/-- The handler `POST` of `contact.ts`: the `try` block with its `catch`. -/
def POST (env : Env) (request : Request) : HandlerResult :=
  match POSTTry env request with
  | (.ok response, sent) => { response := response, sent := sent }
  | (.error _, sent) =>
    { response := errorResponse 500 (lit "Error procesando la solicitud."), sent := sent }

end Contact

/-! ## Checkout handler (`stripe-session.ts`) -/

namespace Checkout

/-- The table `PRICE_IDS`. -/
def PRICE_IDS : List (JsString × JsValue) :=
  [(lit "mensual", .string (lit "price_xxx_mensual")),
   (lit "trimestral", .string (lit "price_xxx_trimestral")),
   (lit "anual", .string (lit "price_xxx_anual"))]

/-- One element of `line_items`. -/
structure LineItem where
  price : JsValue
  quantity : Nat

/-- The argument of `stripe.checkout.sessions.create`. -/
structure SessionCreateParams where
  payment_method_types : List JsString
  line_items : List LineItem
  mode : JsString
  success_url : JsString
  cancel_url : JsString

/-- What the code reads of the created session: `session.url`, a string or `null`. -/
structure Session where
  url : Option JsString

/-- What a handler invocation receives: the payment processor (an error stands for a rejected
promise) and the number formatting used by `ToString`. -/
structure Env where
  create : SessionCreateParams → Except JsError Session
  numberToString : Nat → JsString

/-- The request as the handler sees it: the outcome of `request.json()` and the value of
`request.headers.get('origin')` (`null`, here `none`, when the header is absent). -/
structure Request where
  json : Except JsError JsValue
  origin : Option JsString

/-- Outcome of one handler invocation: the response and the arguments of the calls to
`stripe.checkout.sessions.create`, in order. -/
structure HandlerResult where
  response : Response JsValue
  created : List SessionCreateParams

/-- The response `new Response(JSON.stringify({ error: message }), { status })`. -/
def errorResponse (status : Nat) (message : JsString) : Response JsValue :=
  { status := status, headers := [], body := .object [(lit "error", .string message)] }

/-- The value of `request.headers.get('origin')` as a JavaScript value. -/
def originValue (request : Request) : JsValue :=
  match request.origin with
  | some o => .string o
  | none => .null

/-- The object literal of lines 24-35 for a plan that passed the check. -/
def buildParams (numberToString : Nat → JsString) (request : Request) (plan : JsValue) :
    Except JsError SessionCreateParams :=
  (jsToString numberToString plan).bind fun planKey =>
  let priceId := (PRICE_IDS.lookup planKey).getD .undefined
  (jsToString numberToString (originValue request)).bind fun successOrigin =>
  (jsToString numberToString plan).bind fun successPlan =>
  (jsToString numberToString (originValue request)).bind fun cancelOrigin =>
  .ok { payment_method_types := [lit "card"],
        line_items := [{ price := priceId, quantity := 1 }],
        mode := lit "payment",
        success_url := successOrigin ++ lit "/gracias?plan=" ++ successPlan,
        cancel_url := cancelOrigin ++ lit "/formacion/mentorias?cancel=true" }

/-- The body of the `try` block of `POST`: the response or the exception thrown, and the
arguments of the calls to the payment processor. -/
def POSTTry (env : Env) (request : Request) :
    Except JsError (Response JsValue) × List SessionCreateParams :=
  match request.json with
  | .error e => (.error e, [])
  | .ok body =>
    match getProp body (lit "plan") with
    | .error e => (.error e, [])
    | .ok plan =>
      if !arrayIncludes [.string (lit "mensual"), .string (lit "trimestral"),
          .string (lit "anual")] plan then
        (.ok (errorResponse 400 (lit "Invalid plan")), [])
      else
        match buildParams env.numberToString request plan with
        | .error e => (.error e, [])
        | .ok params =>
          match env.create params with
          | .error e => (.error e, [params])
          | .ok session =>
            (.ok { status := 200, headers := [],
                   body := .object [(lit "url",
                     match session.url with
                     | some u => .string u
                     | none => .null)] }, [params])

/-- The handler `POST` of `stripe-session.ts`: the `try` block with its `catch`. -/
def POST (env : Env) (request : Request) : HandlerResult :=
  match POSTTry env request with
  | (.ok response, created) => { response := response, created := created }
  | (.error _, created) =>
    { response := errorResponse 500 (lit "Stripe error"), created := created }

end Checkout

/-! ## Sample inputs for the later handlers -/

namespace Newsletter

/-- A request from `10.0.0.1` whose body is the JSON text `null`. -/
def nullBodyRequest : Request :=
  { clientAddress := some (lit "10.0.0.1"), json := .ok .null }

/-- A handler environment at time 1000 whose upstream answers every request with the given
status and an empty body. -/
def sampleEnvStatus (status : Nat) : Env := { now := 1000, fetch := upstreamStatus status }

/-- A handler environment at time 1000 whose upstream answers every request with the given
status and a body that cannot be read. -/
def sampleEnvUnreadable (status : Nat) : Env :=
  { now := 1000, fetch := fun _ => .ok { status := status, text := .error (.other []) } }

end Newsletter

namespace Contact

/-- A property of a parsed object is absent or falsy. -/
def absentOrFalsy (fields : List (JsString × JsValue)) (key : JsString) : Bool :=
  match fields.lookup key with
  | none => true
  | some v => !toBoolean v

/-- A stub e-mail service that accepts every message. -/
def stubEnv : Env :=
  { send := fun _ => .ok { data := .object [(lit "id", .string (lit "1"))], error := none },
    numberToString := fun _ => lit "0" }

/-- The request of the end-to-end scenario: `{asunto: 'Hola', descripcion: 'Test',
email: 'a@b.com'}`. -/
def holaRequest : Request :=
  { json := .ok (.object [(lit "asunto", .string (lit "Hola")),
      (lit "descripcion", .string (lit "Test")), (lit "email", .string (lit "a@b.com"))]) }

end Contact

namespace Checkout

/-- A stub payment processor that returns a session with a fixed URL. -/
def stubEnv : Env :=
  { create := fun _ => .ok { url := some (lit "https://checkout.stripe.com/c/pay/cs_test") },
    numberToString := fun _ => lit "0" }

/-- A request with body `{plan}` and the origin header `https://coding-pit.com`. -/
def planRequest (plan : JsString) : Request :=
  { json := .ok (.object [(lit "plan", .string plan)]),
    origin := some (lit "https://coding-pit.com") }

/-- A request whose body parses to the given JSON value, with the origin header
`https://coding-pit.com`. -/
def bodyRequest (body : JsValue) : Request :=
  { json := .ok body, origin := some (lit "https://coding-pit.com") }

end Checkout

/-! ## Call counting, request sequences and further sample inputs -/

namespace Newsletter

/-- The log entry of a call to the upstream service: `submitToListmonk`, which sends one
`fetch`. -/
def isUpstreamCall : Effect → Bool
  | .submitToListmonk _ _ => true
  | _ => false

/-- A sequence of requests handled in order from a store: the results, each request handled
on the store left by the one before. -/
def handleAll (store : RateLimitStore) : List (Env × Request) → List HandlerResult
  | [] => []
  | (env, request) :: rest =>
    let r := POST env store request
    r :: handleAll r.store rest

/-- A request from `10.0.0.1` whose body is the empty object. -/
def emptyObjectRequest : Request :=
  { clientAddress := some (lit "10.0.0.1"), json := .ok (.object []) }

end Newsletter

namespace Contact

/-- The fields of the body `{asunto: {toString: 1}, descripcion: 'Test', email: 'a@b.com'}`:
the three are truthy and `asunto` is an object with an own property `toString`. -/
def trapFields : List (JsString × JsValue) :=
  [(lit "asunto", .object [(lit "toString", .number 4607182418800017408)]),
   (lit "descripcion", .string (lit "Test")), (lit "email", .string (lit "a@b.com"))]

/-- A request whose body has the fields `trapFields`. -/
def trapRequest : Request := { json := .ok (.object trapFields) }

end Contact

/-! ## Theorems -/

/-! ### Regular-expression and string lemmas -/

theorem matchTerms_nil (s : JsString) : matchTerms [] s = true ↔ s = [] := by
  cases s <;> simp [matchTerms]

theorem matchTerms_one (cls : Nat → Bool) (ts : List RegexTerm) (s : JsString) :
    matchTerms (.one cls :: ts) s = true ↔
      ∃ c b, s = c :: b ∧ cls c = true ∧ matchTerms ts b = true := by
  cases s with
  | nil => simp [matchTerms]
  | cons c s =>
    simp only [matchTerms, Bool.and_eq_true, List.cons.injEq]
    constructor
    · rintro ⟨h1, h2⟩
      exact ⟨c, s, ⟨rfl, rfl⟩, h1, h2⟩
    · rintro ⟨c1, b, ⟨rfl, rfl⟩, h1, h2⟩
      exact ⟨h1, h2⟩

theorem matchTerms_plus (cls : Nat → Bool) (ts : List RegexTerm) (s : JsString) :
    matchTerms (.plus cls :: ts) s = true ↔
      ∃ a b, s = a ++ b ∧ a ≠ [] ∧ (∀ c ∈ a, cls c = true) ∧ matchTerms ts b = true := by
  induction s with
  | nil =>
    simp only [matchTerms, Bool.false_eq_true, false_iff]
    rintro ⟨a, b, h, ha, -⟩
    cases a with
    | nil => exact ha rfl
    | cons x a => simp at h
  | cons c s ih =>
    simp only [matchTerms, Bool.and_eq_true, Bool.or_eq_true]
    constructor
    · rintro ⟨hc, h | h⟩
      · obtain ⟨a, b, hs, -, hall, hm⟩ := ih.1 h
        refine ⟨c :: a, b, by simp [hs], by simp, ?_, hm⟩
        intro x hx
        rcases List.mem_cons.1 hx with rfl | hx
        · exact hc
        · exact hall x hx
      · exact ⟨[c], s, rfl, by simp, by simpa using hc, h⟩
    · rintro ⟨a, b, hs, ha, hall, hm⟩
      cases a with
      | nil => exact absurd rfl ha
      | cons x a =>
        simp only [List.cons_append, List.cons.injEq] at hs
        obtain ⟨rfl, rfl⟩ := hs
        refine ⟨hall c (List.mem_cons_self _ _), ?_⟩
        by_cases ha' : a = []
        · subst ha'
          right
          simpa using hm
        · left
          exact ih.2 ⟨a, b, rfl, ha', fun y hy => hall y (List.mem_cons_of_mem _ hy), hm⟩

theorem mem_of_mem_trim {c : Nat} {s : JsString} (h : c ∈ trim s) : c ∈ s := by
  unfold trim trimEnd trimStart at h
  have h1 := (List.dropWhile_sublist isWhiteSpace).subset (List.mem_reverse.1 h)
  exact (List.dropWhile_sublist isWhiteSpace).subset (List.mem_reverse.1 h1)

namespace Newsletter

/-! ### Rate limiter -/

theorem storeSet_same (store : RateLimitStore) (a : JsString) (e : RateLimitEntry) :
    storeSet store a e a = some e := by simp [storeSet]

theorem storeSet_other (store : RateLimitStore) (a ip : JsString) (e : RateLimitEntry)
    (h : ip ≠ a) : storeSet store ip e a = store a := by
  simp [storeSet, Ne.symm h]

theorem check_other (store : RateLimitStore) (now : Int) (a ip : JsString) (h : ip ≠ a) :
    (checkRateLimit store now ip).2 a = store a := by
  unfold checkRateLimit
  split
  · exact storeSet_other _ _ _ _ h
  · split
    · exact storeSet_other _ _ _ _ h
    · split
      · rfl
      · exact storeSet_other _ _ _ _ h

theorem check_none (store : RateLimitStore) (now : Int) (a : JsString) (h : store a = none) :
    checkRateLimit store now a = (true, storeSet store a ⟨1, now + 900000⟩) := by
  simp [checkRateLimit, h, RATE_LIMIT_WINDOW]

theorem check_expired (store : RateLimitStore) (now : Int) (a : JsString) (e : RateLimitEntry)
    (h : store a = some e) (h1 : e.resetTime < now) :
    checkRateLimit store now a = (true, storeSet store a ⟨1, now + 900000⟩) := by
  simp [checkRateLimit, h, RATE_LIMIT_WINDOW, h1]

theorem check_full (store : RateLimitStore) (now : Int) (a : JsString) (e : RateLimitEntry)
    (h : store a = some e) (h1 : now ≤ e.resetTime) (h2 : 5 ≤ e.count) :
    checkRateLimit store now a = (false, store) := by
  have h1' : ¬ (e.resetTime < now) := by omega
  simp [checkRateLimit, h, RATE_LIMIT_MAX_REQUESTS, h1', h2]

theorem check_incr (store : RateLimitStore) (now : Int) (a : JsString) (e : RateLimitEntry)
    (h : store a = some e) (h1 : now ≤ e.resetTime) (h2 : e.count < 5) :
    checkRateLimit store now a = (true, storeSet store a ⟨e.count + 1, e.resetTime⟩) := by
  have h1' : ¬ (e.resetTime < now) := by omega
  have h2' : ¬ (5 ≤ e.count) := by omega
  simp [checkRateLimit, h, RATE_LIMIT_MAX_REQUESTS, h1', h2']

theorem runCalls_cons (store : RateLimitStore) (ip : JsString) (now : Int)
    (rest : List (JsString × Int)) :
    runCalls store ((ip, now) :: rest) =
      (⟨ip, now, (checkRateLimit store now ip).1⟩ ::
        (runCalls (checkRateLimit store now ip).2 rest).1,
       (runCalls (checkRateLimit store now ip).2 rest).2) := rfl

theorem permittedIn_cons (a : JsString) (lo hi : Int) (r : CallRecord) (rs : List CallRecord) :
    permittedIn a lo hi (r :: rs) =
      permittedIn a lo hi rs +
        (if r.clientIP = a ∧ r.permitted = true ∧ lo ≤ r.now ∧ r.now ≤ hi then 1 else 0) := by
  unfold permittedIn
  rw [List.countP_cons]
  congr 1
  simp [and_assoc]

theorem permittedIn_beyond (a : JsString) (lo hi : Int) :
    ∀ (calls : List (JsString × Int)) (store : RateLimitStore),
      (∀ c ∈ calls, hi < c.2) → permittedIn a lo hi (runCalls store calls).1 = 0 := by
  intro calls
  induction calls with
  | nil => intro store _; rfl
  | cons c rest ih =>
    intro store h
    obtain ⟨ip, now⟩ := c
    rw [runCalls_cons, permittedIn_cons]
    have hnow : hi < now := h (ip, now) (List.mem_cons_self _ _)
    rw [ih _ (fun c hc => h c (List.mem_cons_of_mem _ hc))]
    have : ¬ (now ≤ hi) := by omega
    simp [this]

theorem permittedIn_le_potential (a : JsString) (lo : Int) :
    ∀ (calls : List (JsString × Int)) (store : RateLimitStore),
      List.Pairwise (fun x y => x ≤ y) (calls.map Prod.snd) →
      permittedIn a lo (lo + 900000) (runCalls store calls).1 ≤ windowPotential lo (store a) := by
  intro calls
  induction calls with
  | nil => intro store _; simp [runCalls, permittedIn]
  | cons c rest ih =>
    intro store hs
    obtain ⟨ip, now⟩ := c
    simp only [List.map_cons, List.pairwise_cons] at hs
    obtain ⟨hge, hrest⟩ := hs
    by_cases hip : ip = a
    · subst hip
      cases hst : store ip with
      | none =>
        rw [runCalls_cons, permittedIn_cons, check_none _ _ _ hst]
        have := ih (storeSet store ip ⟨1, now + 900000⟩) hrest
        rw [storeSet_same] at this
        simp only [windowPotential] at this ⊢
        split_ifs at this ⊢ <;> omega
      | some e =>
        by_cases h1 : e.resetTime < now
        · by_cases h3 : lo + 900000 ≤ e.resetTime
          · rw [permittedIn_beyond]
            · exact Nat.zero_le _
            · intro c hc
              rcases List.mem_cons.1 hc with rfl | hc
              · show lo + 900000 < now
                omega
              · have := hge c.2 (List.mem_map_of_mem _ hc)
                omega
          · rw [runCalls_cons, permittedIn_cons, check_expired _ _ _ e hst h1]
            have := ih (storeSet store ip ⟨1, now + 900000⟩) hrest
            rw [storeSet_same] at this
            simp only [windowPotential] at this ⊢
            split_ifs at this ⊢ <;> omega
        · by_cases h2 : e.count < 5
          · rw [runCalls_cons, permittedIn_cons, check_incr _ _ _ e hst (by omega) h2]
            have := ih (storeSet store ip ⟨e.count + 1, e.resetTime⟩) hrest
            rw [storeSet_same] at this
            simp only [windowPotential] at this ⊢
            split_ifs at this ⊢ <;> omega
          · rw [runCalls_cons, permittedIn_cons, check_full _ _ _ e hst (by omega) (by omega)]
            have := ih store hrest
            rw [hst] at this
            simpa using this
    · rw [runCalls_cons, permittedIn_cons]
      have := ih (checkRateLimit store now ip).2 hrest
      rw [check_other _ _ _ _ hip] at this
      simpa [hip] using this

theorem runCalls_append (xs ys : List (JsString × Int)) :
    ∀ store : RateLimitStore,
      runCalls store (xs ++ ys) =
        ((runCalls store xs).1 ++ (runCalls (runCalls store xs).2 ys).1,
         (runCalls (runCalls store xs).2 ys).2) := by
  induction xs with
  | nil => intro store; rfl
  | cons c rest ih =>
    intro store
    obtain ⟨ip, now⟩ := c
    rw [List.cons_append, runCalls_cons, ih, runCalls_cons]
    rfl

theorem permittedIn_append (a : JsString) (lo hi : Int) (rs ss : List CallRecord) :
    permittedIn a lo hi (rs ++ ss) = permittedIn a lo hi rs + permittedIn a lo hi ss := by
  unfold permittedIn
  exact List.countP_append _ _ _

theorem permittedIn_before (a : JsString) (lo hi : Int) (rs : List CallRecord)
    (h : ∀ r ∈ rs, r.clientIP = a → r.now < lo) : permittedIn a lo hi rs = 0 := by
  induction rs with
  | nil => rfl
  | cons r rest ih =>
    rw [permittedIn_cons, ih (fun r hr => h r (List.mem_cons_of_mem _ hr))]
    have := h r (List.mem_cons_self _ _)
    have : ¬ (r.clientIP = a ∧ r.permitted = true ∧ lo ≤ r.now ∧ r.now ≤ hi) := by
      rintro ⟨h1, -, h3, -⟩
      have := this h1
      omega
    simp [this]

/-- Within the window of the current entry at most `5 - count` further calls are permitted. -/
theorem permittedIn_window_remaining (a : JsString) (lo : Int) :
    ∀ (calls : List (JsString × Int)) (store : RateLimitStore) (e : RateLimitEntry),
      store a = some e →
      List.Pairwise (fun x y => x ≤ y) (calls.map Prod.snd) →
      permittedIn a lo e.resetTime (runCalls store calls).1 ≤ 5 - e.count := by
  intro calls
  induction calls with
  | nil => intro store e _ _; simp [runCalls, permittedIn]
  | cons c rest ih =>
    intro store e hst hs
    obtain ⟨ip, now⟩ := c
    simp only [List.map_cons, List.pairwise_cons] at hs
    obtain ⟨hge, hrest⟩ := hs
    by_cases hip : ip = a
    · subst hip
      by_cases h1 : e.resetTime < now
      · rw [permittedIn_beyond]
        · exact Nat.zero_le _
        · intro c hc
          rcases List.mem_cons.1 hc with rfl | hc
          · exact h1
          · have := hge c.2 (List.mem_map_of_mem _ hc)
            omega
      · by_cases h2 : e.count < 5
        · rw [runCalls_cons, permittedIn_cons, check_incr _ _ _ e hst (by omega) h2]
          have := ih (storeSet store ip ⟨e.count + 1, e.resetTime⟩) ⟨e.count + 1, e.resetTime⟩
            (storeSet_same _ _ _) hrest
          simp only at this ⊢
          split_ifs <;> omega
        · rw [runCalls_cons, permittedIn_cons, check_full _ _ _ e hst (by omega) (by omega)]
          have := ih store e hst hrest
          simpa using this
    · rw [runCalls_cons, permittedIn_cons]
      have := ih (checkRateLimit store now ip).2 e
        (by rw [check_other _ _ _ _ hip]; exact hst) hrest
      simpa [hip] using this

/-- One call never lowers the `resetTime` of an existing entry. -/
theorem check_resetTime_mono (store : RateLimitStore) (now : Int) (a ip : JsString)
    (e : RateLimitEntry) (h : store a = some e) :
    ∃ e', (checkRateLimit store now ip).2 a = some e' ∧ e.resetTime ≤ e'.resetTime := by
  by_cases hip : ip = a
  · subst hip
    by_cases h1 : e.resetTime < now
    · rw [check_expired _ _ _ e h h1]
      exact ⟨_, storeSet_same _ _ _, by simp only; omega⟩
    · by_cases h2 : e.count < 5
      · rw [check_incr _ _ _ e h (by omega) h2]
        exact ⟨_, storeSet_same _ _ _, le_refl _⟩
      · rw [check_full _ _ _ e h (by omega) (by omega)]
        exact ⟨e, h, le_refl _⟩
  · rw [check_other _ _ _ _ hip]
    exact ⟨e, h, le_refl _⟩

theorem runCalls_resetTime_mono (a : JsString) :
    ∀ (calls : List (JsString × Int)) (store : RateLimitStore) (e : RateLimitEntry),
      store a = some e →
      ∃ e', (runCalls store calls).2 a = some e' ∧ e.resetTime ≤ e'.resetTime := by
  intro calls
  induction calls with
  | nil => intro store e h; exact ⟨e, h, le_refl _⟩
  | cons c rest ih =>
    intro store e h
    obtain ⟨ip, now⟩ := c
    obtain ⟨e1, h1, hle1⟩ := check_resetTime_mono store now a ip e h
    obtain ⟨e2, h2, hle2⟩ := ih _ e1 h1
    rw [runCalls_cons]
    exact ⟨e2, h2, le_trans hle1 hle2⟩

/-- After a call for `a` at time `now` the entry of `a` exists and `now ≤ resetTime`. -/
theorem check_covers (store : RateLimitStore) (now : Int) (a : JsString) :
    ∃ e, (checkRateLimit store now a).2 a = some e ∧ now ≤ e.resetTime := by
  cases hst : store a with
  | none =>
    rw [check_none _ _ _ hst]
    exact ⟨_, storeSet_same _ _ _, by simp only; omega⟩
  | some e =>
    by_cases h1 : e.resetTime < now
    · rw [check_expired _ _ _ e hst h1]
      exact ⟨_, storeSet_same _ _ _, by simp only; omega⟩
    · by_cases h2 : e.count < 5
      · rw [check_incr _ _ _ e hst (by omega) h2]
        exact ⟨_, storeSet_same _ _ _, by simp only; omega⟩
      · rw [check_full _ _ _ e hst (by omega) (by omega)]
        exact ⟨e, hst, by omega⟩

/-- Every recorded call for `a` has a timestamp at most the final `resetTime` of `a`. -/
theorem runCalls_records_covered (a : JsString) :
    ∀ (calls : List (JsString × Int)) (store : RateLimitStore),
      ∀ r ∈ (runCalls store calls).1, r.clientIP = a →
        ∃ e, (runCalls store calls).2 a = some e ∧ r.now ≤ e.resetTime := by
  intro calls
  induction calls with
  | nil => intro store r hr; simp [runCalls] at hr
  | cons c rest ih =>
    intro store r hr ha
    obtain ⟨ip, now⟩ := c
    rw [runCalls_cons] at hr ⊢
    rcases List.mem_cons.1 hr with rfl | hr
    · simp only at ha
      subst ha
      obtain ⟨e1, h1, hle1⟩ := check_covers store now ip
      obtain ⟨e2, h2, hle2⟩ := runCalls_resetTime_mono ip rest _ e1 h1
      exact ⟨e2, h2, le_trans hle1 hle2⟩
    · exact ih _ r hr ha

theorem permittedIn_fixed_window (a : JsString) (w : Int) (pre post : List (JsString × Int))
    (hs : List.Pairwise (fun x y => x ≤ y) ((pre ++ (a, w) :: post).map Prod.snd))
    (hopen : ∀ e, (runCalls emptyStore pre).2 a = some e → e.resetTime < w) :
    permittedIn a w (w + 900000) (runCalls emptyStore (pre ++ (a, w) :: post)).1 ≤ 5 := by
  rw [runCalls_append, permittedIn_append, runCalls_cons, permittedIn_cons]
  have hpre : permittedIn a w (w + 900000) (runCalls emptyStore pre).1 = 0 := by
    apply permittedIn_before
    intro r hr ha
    obtain ⟨e, he, hle⟩ := runCalls_records_covered a pre emptyStore r hr ha
    have := hopen e he
    omega
  have hpost : List.Pairwise (fun x y => x ≤ y) (post.map Prod.snd) := by
    rw [List.map_append, List.map_cons, List.pairwise_append] at hs
    exact (List.pairwise_cons.1 hs.2.1).2
  have hstep : checkRateLimit (runCalls emptyStore pre).2 w a =
      (true, storeSet (runCalls emptyStore pre).2 a ⟨1, w + 900000⟩) := by
    cases hst : (runCalls emptyStore pre).2 a with
    | none => exact check_none _ _ _ hst
    | some e => exact check_expired _ _ _ e hst (hopen e hst)
  rw [hstep]
  have := permittedIn_window_remaining a w post
    (storeSet (runCalls emptyStore pre).2 a ⟨1, w + 900000⟩) ⟨1, w + 900000⟩
    (storeSet_same _ _ _) hpost
  simp only at this ⊢
  rw [hpre]
  split_ifs <;> omega

/-- C1. Rate limiter sequence: from a store with no entry for `a`, six consecutive calls for
`a` with non-decreasing timestamps, all at most the `resetTime` set by the first call
(`t1 + 900000`), return true five times and then false; a later call for `a` with
`now > t1 + 900000` returns true and leaves the entry `{count: 1, resetTime: now + 900000}`. -/
theorem rate_limit_sequence (store : RateLimitStore) (a : JsString)
    (t1 t2 t3 t4 t5 t6 t7 : Int) (hnone : store a = none)
    (h12 : t1 ≤ t2) (h23 : t2 ≤ t3) (h34 : t3 ≤ t4) (h45 : t4 ≤ t5) (h56 : t5 ≤ t6)
    (hwin : t6 ≤ t1 + 900000) (hlater : t7 > t1 + 900000) :
    (runCalls store [(a, t1), (a, t2), (a, t3), (a, t4), (a, t5), (a, t6)]).1.map
        CallRecord.permitted = [true, true, true, true, true, false] ∧
    (checkRateLimit (runCalls store [(a, t1), (a, t2), (a, t3), (a, t4), (a, t5), (a, t6)]).2
        t7 a).1 = true ∧
    (checkRateLimit (runCalls store [(a, t1), (a, t2), (a, t3), (a, t4), (a, t5), (a, t6)]).2
        t7 a).2 a = some ⟨1, t7 + 900000⟩ := by
  have _e1 : t1 ≤ t6 := by omega
  have e2 : ¬ (t2 > t1 + 900000) := by omega
  have e3 : ¬ (t3 > t1 + 900000) := by omega
  have e4 : ¬ (t4 > t1 + 900000) := by omega
  have e5 : ¬ (t5 > t1 + 900000) := by omega
  have e6 : ¬ (t6 > t1 + 900000) := by omega
  simp [runCalls, checkRateLimit, storeSet, hnone, RATE_LIMIT_WINDOW, RATE_LIMIT_MAX_REQUESTS,
    e2, e3, e4, e5, e6, hlater]

/-- Witness for C1: six calls from `10.0.0.1` at times 0 to 5 on the empty store, then a call
at time 900001. -/
theorem rate_limit_sequence_witness :
    (runCalls emptyStore [(lit "10.0.0.1", 0), (lit "10.0.0.1", 1), (lit "10.0.0.1", 2),
        (lit "10.0.0.1", 3), (lit "10.0.0.1", 4), (lit "10.0.0.1", 5)]).1.map
        CallRecord.permitted = [true, true, true, true, true, false] ∧
    (checkRateLimit (runCalls emptyStore [(lit "10.0.0.1", 0), (lit "10.0.0.1", 1),
        (lit "10.0.0.1", 2), (lit "10.0.0.1", 3), (lit "10.0.0.1", 4), (lit "10.0.0.1", 5)]).2
        900001 (lit "10.0.0.1")).1 = true ∧
    (checkRateLimit (runCalls emptyStore [(lit "10.0.0.1", 0), (lit "10.0.0.1", 1),
        (lit "10.0.0.1", 2), (lit "10.0.0.1", 3), (lit "10.0.0.1", 4), (lit "10.0.0.1", 5)]).2
        900001 (lit "10.0.0.1")).2 (lit "10.0.0.1") = some ⟨1, 900001 + 900000⟩ :=
  rate_limit_sequence emptyStore (lit "10.0.0.1") 0 1 2 3 4 5 900001 rfl (by decide) (by decide)
    (by decide) (by decide) (by decide) (by decide) (by decide)

/-- C2. Rate limiter step: for every store, address and time, `checkRateLimit` computes exactly
the three-case step of the specification (reset to `{1, now + 15*60*1000}` and permit when there
is no entry or `now > resetTime`; else increment and permit when `count < 5`; else deny). In
particular, on a store whose entry for `a` is `e`, a call at `now = e.resetTime` stays in the
old window: it increments the count keeping `resetTime` when `e.count < 5`, and is denied with
the store unchanged otherwise. -/
theorem checkRateLimit_three_cases :
    (∀ (store : RateLimitStore) (now : Int) (a : JsString),
      checkRateLimit store now a = checkAndConsumeSpec store now a) ∧
    (∀ (store : RateLimitStore) (a : JsString) (e : RateLimitEntry),
      checkRateLimit (storeSet store a e) e.resetTime a =
        if e.count < 5 then
          (true, storeSet (storeSet store a e) a ⟨e.count + 1, e.resetTime⟩)
        else (false, storeSet store a e)) := by
  constructor
  · intro store now a
    unfold checkRateLimit checkAndConsumeSpec storeSet RATE_LIMIT_WINDOW RATE_LIMIT_MAX_REQUESTS
    cases h : store a with
    | none => simp
    | some e =>
      simp only [Option.all_some, Option.any_some, Option.map_some', decide_eq_true_eq]
      by_cases h1 : now > e.resetTime
      · simp [h1]
      · by_cases h2 : e.count < 5
        · have : ¬ (e.count ≥ 5) := by omega
          simp [h1, h2, this]
        · have : e.count ≥ 5 := by omega
          simp [h1, h2, this]
  · intro store a e
    unfold checkRateLimit RATE_LIMIT_MAX_REQUESTS
    simp [storeSet]
    by_cases h2 : e.count < 5
    · have : ¬ (5 ≤ e.count) := by omega
      simp [h2, this]
    · have : 5 ≤ e.count := by omega
      simp [h2, this]

/-- Counterexample to C3 as stated: in `burstCalls` the timestamps are non-decreasing, and the
interval `[100, 900100]` of length 900000 holds 9 permitted calls of one address, all strictly
inside it (four of the window opened at 0 and five of the window opened at 900001). -/
theorem sliding_window_counterexample :
    List.Pairwise (fun x y => x ≤ y) (burstCalls.map Prod.snd) ∧
    permittedIn (lit "10.0.0.1") 100 (100 + 900000) (runCalls emptyStore burstCalls).1 = 9 ∧
    ¬ permittedIn (lit "10.0.0.1") 100 (100 + 900000) (runCalls emptyStore burstCalls).1 ≤ 5 := by
  refine ⟨by decide, by decide, by decide⟩

/-- C3 (amended). Fixed-window bound: for every address and every sequence of calls with
non-decreasing timestamps from the empty store, any interval of length 900000 ms holds at most
9 permitted calls of that address, and the interval `[w, w + 900000]` that starts at a call
`(a, w)` opening a window (no entry for `a`, or `resetTime < w`, just before it) holds at most
5. -/
theorem fixed_window_bound (a : JsString) (calls : List (JsString × Int))
    (hs : List.Pairwise (fun x y => x ≤ y) (calls.map Prod.snd)) :
    (∀ lo : Int, permittedIn a lo (lo + 900000) (runCalls emptyStore calls).1 ≤ 9) ∧
    (∀ (pre post : List (JsString × Int)) (w : Int), calls = pre ++ (a, w) :: post →
      (∀ e, (runCalls emptyStore pre).2 a = some e → e.resetTime < w) →
      permittedIn a w (w + 900000) (runCalls emptyStore calls).1 ≤ 5) := by
  constructor
  · intro lo
    exact permittedIn_le_potential a lo calls emptyStore hs
  · intro pre post w hc hopen
    subst hc
    exact permittedIn_fixed_window a w pre post hs hopen

/-- Witness for C3 (amended): on `burstCalls` the interval `[100, 900100]` holds at most 9
permitted calls, and the interval starting at the window-opening call at 900001 at most 5. -/
theorem fixed_window_bound_witness :
    permittedIn (lit "10.0.0.1") 100 (100 + 900000) (runCalls emptyStore burstCalls).1 ≤ 9 ∧
    permittedIn (lit "10.0.0.1") 900001 (900001 + 900000) (runCalls emptyStore burstCalls).1
      ≤ 5 := by
  have h := fixed_window_bound (lit "10.0.0.1") burstCalls (by decide)
  refine ⟨h.1 100, h.2 (burstCalls.take 5) (burstCalls.drop 6) 900001 rfl ?_⟩
  intro e he
  have hst : (runCalls emptyStore (burstCalls.take 5)).2 (lit "10.0.0.1") =
      some ⟨5, 900000⟩ := by decide
  rw [hst] at he
  cases he
  decide

/-! ### Validation -/

theorem regexTest_EMAIL_REGEX (s : JsString) :
    regexTest EMAIL_REGEX s = true ↔ MatchesEmailPattern s := by
  unfold regexTest EMAIL_REGEX MatchesEmailPattern
  simp only [matchTerms_plus, matchTerms_one, matchTerms_nil]
  constructor
  · rintro ⟨l, r1, rfl, hl, hlall, c1, r2, rfl, hc1, d, r3, rfl, hd, hdall, c2, r4, rfl, hc2,
      t, r5, rfl, ht, htall, rfl⟩
    simp only [beq_iff_eq] at hc1 hc2
    subst hc1 hc2
    exact ⟨l, d, t, by simp, hl, hd, ht, hlall, hdall, htall⟩
  · rintro ⟨l, d, t, rfl, hl, hd, ht, hlall, hdall, htall⟩
    exact ⟨l, _, rfl, hl, hlall, 64, _, rfl, by simp, d, _, rfl, hd, hdall, 46, _, rfl, by simp,
      t, [], by simp, ht, htall, rfl⟩

theorem trim_nil : trim [] = [] := rfl

theorem missingOrBlank_eq (v : JsValue) :
    missingOrBlank v =
      .ok (match v with
        | .string s => (trim s).length == 0
        | _ => true) := by
  cases v with
  | string s =>
    cases s with
    | nil => rfl
    | cons c s =>
      have : (lit "string" != lit "string") = false := by decide
      simp [missingOrBlank, toBoolean, typeOf, this, callTrim, Except.map]
  | undefined => rfl
  | null => rfl
  | bool b => cases b <;> rfl
  | number bits =>
    have : (lit "number" != lit "string") = true := by decide
    simp [missingOrBlank, typeOf, this]
  | array items => rfl
  | object fields => rfl

/-- The messages pushed for `data.name`, by cases on the value. -/
theorem nameErrors_eq (v : JsValue) :
    nameErrors v =
      .ok (match v with
        | .string s =>
          if (trim s).length = 0 then [lit "El nombre es obligatorio"]
          else if (trim s).length > 100 then [lit "El nombre no puede exceder 100 caracteres"]
          else []
        | _ => [lit "El nombre es obligatorio"]) := by
  unfold nameErrors
  rw [missingOrBlank_eq]
  cases v <;> simp [Except.bind, callTrim, Except.map]
  split_ifs <;> rfl

theorem emailErrors_eq (v : JsValue) :
    emailErrors v =
      .ok (match v with
        | .string s =>
          if (trim s).length = 0 then [lit "El email es obligatorio"]
          else if regexTest EMAIL_REGEX (trim s) = false then
            [lit "El formato del email no es válido"]
          else if (trim s).length > 255 then [lit "El email no puede exceder 255 caracteres"]
          else []
        | _ => [lit "El email es obligatorio"]) := by
  unfold emailErrors
  rw [missingOrBlank_eq]
  cases v <;> simp [Except.bind, callTrim, Except.map]
  split_ifs <;> simp_all

theorem nameErrors_spec (v : JsValue) :
    ∃ errs, nameErrors v = .ok errs ∧
      (errs = [] ↔ ∃ n, v = .string n ∧ 1 ≤ (trim n).length ∧ (trim n).length ≤ 100) := by
  refine ⟨_, nameErrors_eq v, ?_⟩
  cases v with
  | string s =>
    simp only [JsValue.string.injEq, exists_eq_left']
    split_ifs with h1 h2
    · simp; omega
    · simp; omega
    · simp; omega
  | _ => simp

theorem emailErrors_spec (v : JsValue) :
    ∃ errs, emailErrors v = .ok errs ∧
      (errs = [] ↔ ∃ e, v = .string e ∧ 1 ≤ (trim e).length ∧ (trim e).length ≤ 255 ∧
        MatchesEmailPattern (trim e)) := by
  refine ⟨_, emailErrors_eq v, ?_⟩
  cases v with
  | string s =>
    simp only [JsValue.string.injEq, exists_eq_left', ← regexTest_EMAIL_REGEX]
    split_ifs with h1 h2 h3
    · simp; omega
    · simp [h2]
    · simp; omega
    · simp at h2
      simp [h2]; omega
  | _ => simp

theorem lookup_getD_string (fields : List (JsString × JsValue)) (k : JsString) (s : JsString) :
    (fields.lookup k).getD .undefined = .string s ↔ fields.lookup k = some (.string s) := by
  cases fields.lookup k <;> simp

theorem validateInput_object (fields : List (JsString × JsValue)) :
    ∃ errs1 errs2,
      nameErrors ((fields.lookup (lit "name")).getD .undefined) = .ok errs1 ∧
      emailErrors ((fields.lookup (lit "email")).getD .undefined) = .ok errs2 ∧
      validateInput (.object fields) =
        .ok { isValid := (errs1 ++ errs2).length == 0, errors := errs1 ++ errs2 } := by
  obtain ⟨e1, h1, -⟩ := nameErrors_spec ((fields.lookup (lit "name")).getD .undefined)
  obtain ⟨e2, h2, -⟩ := emailErrors_spec ((fields.lookup (lit "email")).getD .undefined)
  refine ⟨e1, e2, h1, h2, ?_⟩
  simp [validateInput, getProp, Except.bind, h1, h2]

set_option maxRecDepth 100000 in
/-- C4. Subscription validation is exact: for every input object, `validateInput` returns a
result whose `isValid` is true if and only if `name` is a string with trimmed length between 1
and 100 and `email` is a string with trimmed length between 1 and 255 whose trimmed value
matches the e-mail pattern; and `isValid` is false exactly when `errors` is non-empty. The test
inputs evaluate as expected: the valid pair is valid; an empty name, the e-mail
`invalid-email`, the empty object and a 1000-character name are invalid. -/
theorem validateInput_exact :
    (∀ fields : List (JsString × JsValue), ∃ r, validateInput (.object fields) = .ok r ∧
      (r.isValid = true ↔
        (∃ n, fields.lookup (lit "name") = some (.string n) ∧
          1 ≤ (trim n).length ∧ (trim n).length ≤ 100) ∧
        (∃ e, fields.lookup (lit "email") = some (.string e) ∧
          1 ≤ (trim e).length ∧ (trim e).length ≤ 255 ∧ MatchesEmailPattern (trim e))) ∧
      (r.isValid = false ↔ r.errors ≠ [])) ∧
    validateInput (.object [(lit "name", .string (lit "Test User")),
        (lit "email", .string (lit "test@example.com"))]) = .ok ⟨true, []⟩ ∧
    validateInput (.object [(lit "name", .string (lit "")),
        (lit "email", .string (lit "test@example.com"))]) =
      .ok ⟨false, [lit "El nombre es obligatorio"]⟩ ∧
    validateInput (.object [(lit "name", .string (lit "Test User")),
        (lit "email", .string (lit "invalid-email"))]) =
      .ok ⟨false, [lit "El formato del email no es válido"]⟩ ∧
    validateInput (.object []) =
      .ok ⟨false, [lit "El nombre es obligatorio", lit "El email es obligatorio"]⟩ ∧
    validateInput (.object [(lit "name", .string (List.replicate 1000 97)),
        (lit "email", .string (lit "long-test-1@example.com"))]) =
      .ok ⟨false, [lit "El nombre no puede exceder 100 caracteres"]⟩ := by
  refine ⟨?_, rfl, rfl, rfl, rfl, ?_⟩
  · intro fields
    obtain ⟨e1, e2, h1, h2, hv⟩ := validateInput_object fields
    obtain ⟨e1', h1', hn⟩ := nameErrors_spec ((fields.lookup (lit "name")).getD .undefined)
    obtain ⟨e2', h2', he⟩ := emailErrors_spec ((fields.lookup (lit "email")).getD .undefined)
    rw [h1] at h1'
    rw [h2] at h2'
    cases h1'
    cases h2'
    refine ⟨_, hv, ?_, ?_⟩
    · simp only [beq_iff_eq, List.length_eq_zero, List.append_eq_nil, hn, he,
        lookup_getD_string]
    · simp
  · rfl

set_option maxRecDepth 100000 in
/-- Counterexample to C5 as stated: an e-mail of 256 letters `a` violates both the pattern rule
and the length rule, and only the pattern message is returned; the length message is absent. -/
theorem validateInput_first_violation_only :
    255 < (trim (List.replicate 256 97)).length ∧
    validateInput (.object [(lit "name", .string (lit "Test User")),
        (lit "email", .string (List.replicate 256 97))]) =
      .ok ⟨false, [lit "El formato del email no es válido"]⟩ ∧
    lit "El email no puede exceder 255 caracteres" ∉ [lit "El formato del email no es válido"] := by
  refine ⟨by decide, rfl, by decide⟩

/-- C5 (amended). For every input object `validateInput` reports the first violated rule of
each field: a missing or blank name gives the name-required message; a name longer than 100
after trimming gives the name-length message; a missing or blank e-mail gives the
e-mail-required message; a non-blank e-mail that does not match the pattern gives the format
message; an e-mail that matches the pattern and is longer than 255 after trimming gives the
e-mail-length message. -/
theorem validateInput_reports_per_field (fields : List (JsString × JsValue)) :
    ∃ r, validateInput (.object fields) = .ok r ∧
      ((¬ ∃ n, fields.lookup (lit "name") = some (.string n) ∧ 1 ≤ (trim n).length) →
        lit "El nombre es obligatorio" ∈ r.errors) ∧
      (∀ n, fields.lookup (lit "name") = some (.string n) → 100 < (trim n).length →
        lit "El nombre no puede exceder 100 caracteres" ∈ r.errors) ∧
      ((¬ ∃ e, fields.lookup (lit "email") = some (.string e) ∧ 1 ≤ (trim e).length) →
        lit "El email es obligatorio" ∈ r.errors) ∧
      (∀ e, fields.lookup (lit "email") = some (.string e) → 1 ≤ (trim e).length →
        ¬ MatchesEmailPattern (trim e) → lit "El formato del email no es válido" ∈ r.errors) ∧
      (∀ e, fields.lookup (lit "email") = some (.string e) → MatchesEmailPattern (trim e) →
        255 < (trim e).length → lit "El email no puede exceder 255 caracteres" ∈ r.errors) := by
  obtain ⟨e1, e2, h1, h2, hv⟩ := validateInput_object fields
  rw [nameErrors_eq] at h1
  rw [emailErrors_eq] at h2
  simp only [Except.ok.injEq] at h1 h2
  refine ⟨_, hv, ?_, ?_, ?_, ?_, ?_⟩
  · intro h
    apply List.mem_append_left
    rw [← h1]
    cases hl : (fields.lookup (lit "name")).getD .undefined with
    | string s =>
      have hs := (lookup_getD_string _ _ _).1 hl
      have : (trim s).length = 0 := by
        by_contra hne
        exact h ⟨s, hs, by omega⟩
      simp [this]
    | _ => simp
  · intro n hn hlen
    apply List.mem_append_left
    rw [← h1, (lookup_getD_string _ _ _).2 hn]
    have : ¬ (trim n).length = 0 := by omega
    simp only [this, if_false, hlen, if_true, gt_iff_lt]
    simp
  · intro h
    apply List.mem_append_right
    rw [← h2]
    cases hl : (fields.lookup (lit "email")).getD .undefined with
    | string s =>
      have hs := (lookup_getD_string _ _ _).1 hl
      have : (trim s).length = 0 := by
        by_contra hne
        exact h ⟨s, hs, by omega⟩
      simp [this]
    | _ => simp
  · intro e he hlen hpat
    apply List.mem_append_right
    rw [← h2, (lookup_getD_string _ _ _).2 he]
    have h0 : ¬ (trim e).length = 0 := by omega
    have hre : regexTest EMAIL_REGEX (trim e) = false := by
      rw [← regexTest_EMAIL_REGEX] at hpat
      simpa using hpat
    simp [h0, hre]
  · intro e he hpat hlen
    apply List.mem_append_right
    rw [← h2, (lookup_getD_string _ _ _).2 he]
    have h0 : ¬ (trim e).length = 0 := by omega
    have hre : regexTest EMAIL_REGEX (trim e) = true := (regexTest_EMAIL_REGEX _).2 hpat
    simp [h0, hre, hlen]

/-- Witness for C5 (amended): on the empty object both required-field messages are
reported. -/
theorem validateInput_reports_per_field_witness :
    ∃ r, validateInput (.object []) = .ok r ∧ lit "El nombre es obligatorio" ∈ r.errors ∧
      lit "El email es obligatorio" ∈ r.errors := by
  obtain ⟨r, h, h1, -, h3, -, -⟩ := validateInput_reports_per_field []
  exact ⟨r, h, h1 (by simp), h3 (by simp)⟩

theorem substring_zero (s : JsString) (n : Nat) : substring s 0 n = s.take n := by
  unfold substring
  simp only [Nat.zero_min, Nat.zero_le, min_eq_left, max_eq_right, List.drop_zero, Nat.sub_zero]
  rcases Nat.le_total n s.length with h | h
  · rw [min_eq_left h]
  · rw [min_eq_right h, List.take_of_length_le h, List.take_of_length_le (le_refl _)]

theorem sanitizeInput_eq (s : JsString) :
    sanitizeInput s = ((trim s).filter (fun c => !isAngle c)).take 255 := by
  unfold sanitizeInput removeClass
  exact substring_zero _ _

/-- C6. For every string `s`, `sanitizeInput s` is the first 255 code units of the trimmed
`s` with every `<` (60) and `>` (62) removed; so it contains neither and has length at most
255. On the test string with `<b>Bob</b>` between blanks it gives `bBob/b`. -/
theorem sanitizeInput_spec :
    (∀ s : JsString, sanitizeInput s = sanitizeSpec s ∧ 60 ∉ sanitizeInput s ∧
      62 ∉ sanitizeInput s ∧ (sanitizeInput s).length ≤ 255) ∧
    sanitizeInput (lit "  <b>Bob</b>  ") = lit "bBob/b" := by
  refine ⟨fun s => ⟨?_, ?_, ?_, ?_⟩, rfl⟩
  · rw [sanitizeInput_eq, sanitizeSpec]
    congr 2
    funext c
    simp [isAngle, bne, Bool.not_or]
  · rw [sanitizeInput_eq]
    intro h
    have := List.mem_filter.1 (List.mem_of_mem_take h)
    simp [isAngle] at this
  · rw [sanitizeInput_eq]
    intro h
    have := List.mem_filter.1 (List.mem_of_mem_take h)
    simp [isAngle] at this
  · rw [sanitizeInput_eq]
    exact List.length_take_le _ _

/-- C8. Upstream status mapping of `submitToListmonk`: a 2xx status gives `{success: true}`
without `error`; with a readable body, 409 gives the already-subscribed message (it contains
`suscrito`), 400 the invalid-data message (it contains `inválid`), every other non-2xx status
the generic processing message; a rejected `fetch` gives the connection message. -/
theorem submitToListmonk_status_mapping (fetch : Fetch) (name email : JsString) :
    (∀ resp, fetch (listmonkRequest name email) = .ok resp →
      200 ≤ resp.status → resp.status ≤ 299 →
      submitToListmonk fetch name email = .ok { success := true, error := none }) ∧
    (∀ resp body, fetch (listmonkRequest name email) = .ok resp → resp.text = .ok body →
      resp.status = 409 →
      submitToListmonk fetch name email =
        .ok { success := false, error := some (lit "Ya estás suscrito a nuestra newsletter") }) ∧
    (∀ resp body, fetch (listmonkRequest name email) = .ok resp → resp.text = .ok body →
      resp.status = 400 →
      submitToListmonk fetch name email =
        .ok { success := false, error := some (lit "Datos de suscripción inválidos") }) ∧
    (∀ resp body, fetch (listmonkRequest name email) = .ok resp → resp.text = .ok body →
      ¬ (200 ≤ resp.status ∧ resp.status ≤ 299) → resp.status ≠ 409 → resp.status ≠ 400 →
      submitToListmonk fetch name email =
        .ok { success := false, error := some (lit "Error al procesar la suscripción") }) ∧
    (∀ err, fetch (listmonkRequest name email) = .error err →
      submitToListmonk fetch name email =
        .ok { success := false,
              error := some (lit "Error de conexión. Inténtalo de nuevo más tarde.") }) ∧
    (∃ pre post, lit "Ya estás suscrito a nuestra newsletter" = pre ++ lit "suscrito" ++ post) ∧
    (∃ pre post, lit "Datos de suscripción inválidos" = pre ++ lit "inválid" ++ post) := by
  refine ⟨?_, ?_, ?_, ?_, ?_, ⟨lit "Ya estás ", lit " a nuestra newsletter", by decide⟩,
    ⟨lit "Datos de suscripción ", lit "os", by decide⟩⟩
  · intro resp h h1 h2
    simp [submitToListmonk, submitToListmonkTry, h, Except.bind, UpstreamResponse.ok, h1, h2]
  · intro resp body h ht hs
    simp [submitToListmonk, submitToListmonkTry, h, Except.bind, UpstreamResponse.ok, ht, hs]
  · intro resp body h ht hs
    simp [submitToListmonk, submitToListmonkTry, h, Except.bind, UpstreamResponse.ok, ht, hs]
  · intro resp body h ht hr h409 h400
    have hok : resp.ok = false := by
      simp only [UpstreamResponse.ok, Bool.and_eq_false_iff, decide_eq_false_iff_not]
      by_contra hc
      push_neg at hc
      exact hr hc
    simp [submitToListmonk, submitToListmonkTry, h, Except.bind, hok, ht, h409, h400]
  · intro err h
    simp [submitToListmonk, submitToListmonkTry, h, Except.bind]

/-- C9. The function `submitToListmonk` never throws: for every name, e-mail and upstream
behaviour (any status, a rejected `fetch`, a failing `response.text()`) it returns a value
`{success, error?}` in which `error` is present if and only if `success` is false. -/
theorem submitToListmonk_never_throws (fetch : Fetch) (name email : JsString) :
    ∃ r, submitToListmonk fetch name email = .ok r ∧
      (r.error.isSome = true ↔ r.success = false) := by
  unfold submitToListmonk
  cases h : submitToListmonkTry fetch name email with
  | error e => exact ⟨_, rfl, by simp⟩
  | ok r =>
    refine ⟨r, rfl, ?_⟩
    unfold submitToListmonkTry at h
    cases hf : fetch (listmonkRequest name email) with
    | error e => simp [hf, Except.bind] at h
    | ok resp =>
      simp only [hf, Except.bind] at h
      cases ht : resp.text <;> simp only [ht] at h <;> split_ifs at h <;> cases h <;> simp

/-- C10. Rate-limited requests: when `checkRateLimit` returns false for the request, the
handler answers 429 with header `Retry-After: 900` and body `{success: false, error:
'Demasiadas solicitudes. Inténtalo de nuevo en 15 minutos.'}`, and makes none of the later
calls: no body parsing, no validation, no upstream call. -/
theorem rate_limited_response (env : Env) (store : RateLimitStore) (request : Request)
    (h : (checkRateLimit store env.now (clientIPOf request)).1 = false) :
    (POST env store request).response =
      { status := 429,
        headers := [(lit "Content-Type", lit "application/json"), (lit "Retry-After", lit "900")],
        body := { success := false,
                  error := some (lit "Demasiadas solicitudes. Inténtalo de nuevo en 15 minutos.") } } ∧
    (POST env store request).response.headers.lookup (lit "Retry-After") = some (lit "900") ∧
    (POST env store request).log = [] := by
  have hp : POST env store request =
      { response :=
        { status := 429,
          headers := [(lit "Content-Type", lit "application/json"), (lit "Retry-After", lit "900")],
          body := { success := false,
                    error := some (lit "Demasiadas solicitudes. Inténtalo de nuevo en 15 minutos.") } },
        store := (checkRateLimit store env.now (clientIPOf request)).2, log := [] } := by
    unfold POST
    simp [h]
  rw [hp]
  exact ⟨rfl, rfl, rfl⟩

/-! ### Forwarded fields -/

theorem sanitizeInput_length_le (s : JsString) : (sanitizeInput s).length ≤ (trim s).length := by
  rw [sanitizeInput_eq, List.length_take]
  exact le_trans (min_le_right _ _) (List.length_filter_le _ _)

theorem sanitizeInput_not_angle (s : JsString) (c : Nat) (h : c ∈ sanitizeInput s) :
    isAngle c = false := by
  rw [sanitizeInput_eq] at h
  have := (List.mem_filter.1 (List.mem_of_mem_take h)).2
  simpa using this

theorem sanitizeInput_of_no_angle (s : JsString) (h60 : 60 ∉ s) (h62 : 62 ∉ s)
    (hlen : (trim s).length ≤ 255) : sanitizeInput s = trim s := by
  rw [sanitizeInput_eq]
  have hf : (trim s).filter (fun c => !isAngle c) = trim s := by
    rw [List.filter_eq_self]
    intro c hc
    have hcs := mem_of_mem_trim hc
    have h1 : c ≠ 60 := fun h => h60 (h ▸ hcs)
    have h2 : c ≠ 62 := fun h => h62 (h ▸ hcs)
    simp [isAngle, h1, h2]
  rw [hf]
  exact List.take_of_length_le hlen

theorem sanitizeInput_email_ne_nil (s : JsString) (h : MatchesEmailPattern (trim s)) :
    sanitizeInput s ≠ [] := by
  obtain ⟨l, d, t, hs, -⟩ := h
  rw [sanitizeInput_eq]
  intro hnil
  rcases List.take_eq_nil_iff.1 hnil with h0 | h0
  · omega
  · have hmem : 64 ∈ (trim s).filter (fun c => !isAngle c) := by
      rw [List.mem_filter]
      refine ⟨?_, by decide⟩
      rw [hs]
      simp
    rw [h0] at hmem
    simp at hmem

theorem validateInput_valid (data : JsValue) (r : ValidationResult)
    (h : validateInput data = .ok r) (hv : r.isValid = true) :
    ∃ n e, getProp data (lit "name") = .ok (.string n) ∧
      getProp data (lit "email") = .ok (.string e) ∧
      1 ≤ (trim n).length ∧ (trim n).length ≤ 100 ∧
      1 ≤ (trim e).length ∧ (trim e).length ≤ 255 ∧ MatchesEmailPattern (trim e) := by
  unfold validateInput at h
  cases hn : getProp data (lit "name") with
  | error err => simp [hn, Except.bind] at h
  | ok vn =>
    cases he : getProp data (lit "email") with
    | error err =>
      obtain ⟨e1, h1, -⟩ := nameErrors_spec vn
      simp [hn, he, h1, Except.bind] at h
    | ok ve =>
      obtain ⟨e1, h1, hs1⟩ := nameErrors_spec vn
      obtain ⟨e2, h2, hs2⟩ := emailErrors_spec ve
      simp only [hn, he, h1, h2, Except.bind, Except.ok.injEq] at h
      subst h
      simp only [beq_iff_eq, List.length_eq_zero, List.append_eq_nil] at hv
      obtain ⟨n, rfl, hn1, hn2⟩ := hs1.1 hv.1
      obtain ⟨e, rfl, he1, he2, he3⟩ := hs2.1 hv.2
      exact ⟨n, e, rfl, rfl, hn1, hn2, he1, he2, he3⟩

theorem POST_log_submit (env : Env) (store : RateLimitStore) (request : Request)
    (name email : JsString)
    (h : Effect.submitToListmonk name email ∈ (POST env store request).log) :
    ∃ data r n e, request.json = .ok data ∧ validateInput data = .ok r ∧ r.isValid = true ∧
      getProp data (lit "name") = .ok (.string n) ∧
      getProp data (lit "email") = .ok (.string e) ∧
      name = sanitizeInput n ∧ email = sanitizeInput e := by
  unfold POST at h
  simp only at h
  split_ifs at h with hlim
  · simp at h
  · split at h
    · simp at h
    · rename_i requestData hj
      split at h
      · simp at h
      · rename_i validation hval
        split_ifs at h with hvalid
        · simp at h
        · have hv : validation.isValid = true := by simpa using hvalid
          obtain ⟨n, e, hn, he, -⟩ := validateInput_valid requestData validation hval hv
          refine ⟨requestData, validation, n, e, hj, hval, hv, hn, he, ?_⟩
          rw [hn, he] at h
          simp only [Except.bind, stringArg] at h
          split at h <;> [split_ifs at h; skip] <;> simpa using h

/-- C7 (amended). Bounds on what is forwarded: whenever the handler calls `submitToListmonk`,
the name passed has at most 100 code units and no `<` or `>`, the e-mail passed is non-empty,
has at most 255 code units and no `<` or `>`; both are `sanitizeInput` of the string fields of
the parsed body; and when the submitted name (respectively e-mail) contains no `<` or `>`, the
name passed is non-empty (respectively the e-mail passed matches the pattern). -/
theorem forwarded_fields_bounds (env : Env) (store : RateLimitStore) (request : Request)
    (name email : JsString)
    (h : Effect.submitToListmonk name email ∈ (POST env store request).log) :
    name.length ≤ 100 ∧ 60 ∉ name ∧ 62 ∉ name ∧
    email ≠ [] ∧ email.length ≤ 255 ∧ 60 ∉ email ∧ 62 ∉ email ∧
    ∃ data n e, request.json = .ok data ∧
      getProp data (lit "name") = .ok (.string n) ∧
      getProp data (lit "email") = .ok (.string e) ∧
      name = sanitizeInput n ∧ email = sanitizeInput e ∧
      (60 ∉ n → 62 ∉ n → name ≠ []) ∧
      (60 ∉ e → 62 ∉ e → MatchesEmailPattern email) := by
  obtain ⟨data, r, n, e, hj, hval, hv, hn, he, rfl, rfl⟩ :=
    POST_log_submit env store request name email h
  obtain ⟨n', e', hn', he', hn1, hn2, he1, he2, he3⟩ := validateInput_valid data r hval hv
  rw [hn] at hn'
  rw [he] at he'
  cases hn'
  cases he'
  refine ⟨le_trans (sanitizeInput_length_le n) hn2, ?_, ?_, sanitizeInput_email_ne_nil e he3,
    le_trans (sanitizeInput_length_le e) he2, ?_, ?_, data, n, e, hj, hn, he, rfl, rfl, ?_, ?_⟩
  · intro hm; have := sanitizeInput_not_angle n 60 hm; simp [isAngle] at this
  · intro hm; have := sanitizeInput_not_angle n 62 hm; simp [isAngle] at this
  · intro hm; have := sanitizeInput_not_angle e 60 hm; simp [isAngle] at this
  · intro hm; have := sanitizeInput_not_angle e 62 hm; simp [isAngle] at this
  · intro h60 h62
    rw [sanitizeInput_of_no_angle n h60 h62 (by omega)]
    intro hnil
    rw [hnil] at hn1
    simp at hn1
  · intro h60 h62
    rw [sanitizeInput_of_no_angle e h60 h62 he2]
    exact he3

/-- Counterexample to C7 as stated: for the valid body with name `<>` and e-mail `a@b.<>` the
handler calls `submitToListmonk` with the empty name and the e-mail `a@b.`, which does not
match the pattern. -/
theorem forwarded_fields_counterexample :
    (POST sampleEnv emptyStore (sampleRequest (lit "<>") (lit "a@b.<>"))).log =
      [.json, .validateInput, .sanitizeInput (lit "<>"), .sanitizeInput (lit "a@b.<>"),
       .submitToListmonk [] (lit "a@b.")] ∧
    regexTest EMAIL_REGEX (lit "a@b.") = false := by
  exact ⟨rfl, rfl⟩

/-- Witness for C7 (amended): the request with name ` Ada ` and e-mail `ada@example.com`
forwards `Ada` and `ada@example.com`. -/
theorem forwarded_fields_bounds_witness :
    (lit "Ada").length ≤ 100 ∧ lit "ada@example.com" ≠ [] ∧
      (lit "ada@example.com").length ≤ 255 := by
  have h := forwarded_fields_bounds sampleEnv emptyStore
    (sampleRequest (lit " Ada ") (lit "ada@example.com")) (lit "Ada") (lit "ada@example.com")
    (by decide)
  exact ⟨h.1, h.2.2.2.1, h.2.2.2.2.1⟩

/-- Witness for C8: an upstream answering 409 with a readable body. -/
theorem submitToListmonk_status_mapping_witness :
    submitToListmonk (upstreamStatus 409) (lit "Ada") (lit "ada@example.com") =
      .ok { success := false, error := some (lit "Ya estás suscrito a nuestra newsletter") } :=
  (submitToListmonk_status_mapping (upstreamStatus 409) (lit "Ada") (lit "ada@example.com")).2.1
    { status := 409, text := .ok [] } [] rfl rfl rfl

/-- Witness for C10: a request from an address that has used its five requests. -/
theorem rate_limited_response_witness :
    (POST sampleEnv exhaustedStore (sampleRequest (lit "Ada") (lit "ada@example.com"))).response.status
        = 429 ∧
      (POST sampleEnv exhaustedStore (sampleRequest (lit "Ada") (lit "ada@example.com"))).log = [] := by
  have h := rate_limited_response sampleEnv exhaustedStore
    (sampleRequest (lit "Ada") (lit "ada@example.com")) (by decide)
  exact ⟨by rw [h.1], h.2.2⟩

end Newsletter

/-! ### Subscription handler outcomes -/

namespace Newsletter

/-- The handler on a request that passes the rate limit and the validation: the response is
decided by the result of `submitToListmonk` on the sanitized fields. -/
theorem POST_valid_request (env : Env) (store : RateLimitStore) (request : Request)
    (data : JsValue) (r : ValidationResult) (n e : JsString) (result : SubscriptionResponse)
    (hlim : (checkRateLimit store env.now (clientIPOf request)).1 = true)
    (hj : request.json = .ok data) (hv : validateInput data = .ok r)
    (hvalid : r.isValid = true)
    (hn : getProp data (lit "name") = .ok (.string n))
    (he : getProp data (lit "email") = .ok (.string e))
    (hs : submitToListmonk env.fetch (sanitizeInput n) (sanitizeInput e) = .ok result) :
    (POST env store request).response =
      (if result.success then jsonResponse 200 { success := true, error := none }
       else jsonResponse 400 { success := false, error := result.error }) ∧
    (POST env store request).log =
      [.json, .validateInput, .sanitizeInput n, .sanitizeInput e,
       .submitToListmonk (sanitizeInput n) (sanitizeInput e)] := by
  unfold POST
  simp only [hlim, hj, hv, hvalid, hn, he, Except.bind, stringArg, hs, Bool.not_true,
    Bool.false_eq_true, if_false]
  split_ifs <;> exact ⟨rfl, rfl⟩

/-- The handler on a request that passes the rate limit and whose body is malformed JSON or
fails the validation: a 400 with the message, and no call of `submitToListmonk`. -/
theorem POST_invalid_request (env : Env) (store : RateLimitStore) (request : Request)
    (hlim : (checkRateLimit store env.now (clientIPOf request)).1 = true) :
    (∀ err, request.json = .error err →
      (POST env store request).response =
        jsonResponse 400 { success := false, error := some (lit "Formato de datos inválido") } ∧
      (POST env store request).log = [.json]) ∧
    (∀ data r, request.json = .ok data → validateInput data = .ok r → r.isValid = false →
      (POST env store request).response =
        jsonResponse 400
          { success := false, error := some ((lit ", ").intercalate r.errors) } ∧
      (POST env store request).log = [.json, .validateInput]) := by
  constructor
  · intro err hj
    unfold POST
    simp only [hlim, hj, Bool.not_true, Bool.false_eq_true, if_false]
    exact ⟨trivial, trivial⟩
  · intro data r hj hv hvalid
    unfold POST
    simp only [hlim, hj, hv, hvalid, Bool.not_true, Bool.not_false, Bool.false_eq_true,
      if_false, if_true]
    exact ⟨trivial, trivial⟩

/-- Every parsed body other than `null` and `undefined` is validated without an exception. -/
theorem validateInput_total (data : JsValue) (h1 : data ≠ .null) (h2 : data ≠ .undefined) :
    ∃ r, validateInput data = .ok r := by
  have hp : ∀ k, ∃ v, getProp data k = .ok v := by
    intro k
    cases data <;> simp [getProp] at h1 h2 ⊢
  obtain ⟨vn, hn⟩ := hp (lit "name")
  obtain ⟨ve, he⟩ := hp (lit "email")
  obtain ⟨e1, h1', -⟩ := nameErrors_spec vn
  obtain ⟨e2, h2', -⟩ := emailErrors_spec ve
  refine ⟨{ isValid := (e1 ++ e2).length == 0, errors := e1 ++ e2 }, ?_⟩
  simp [validateInput, hn, he, h1', h2', Except.bind]

theorem submitToListmonk_of_fetch_error (fetch : Fetch) (name email : JsString) (err : JsError)
    (h : fetch (listmonkRequest name email) = .error err) :
    submitToListmonk fetch name email =
      .ok { success := false,
            error := some (lit "Error de conexión. Inténtalo de nuevo más tarde.") } := by
  simp [submitToListmonk, submitToListmonkTry, h, Except.bind]

theorem submitToListmonk_of_ok (fetch : Fetch) (name email : JsString)
    (resp : UpstreamResponse) (h : fetch (listmonkRequest name email) = .ok resp)
    (hok : resp.ok = true) :
    submitToListmonk fetch name email = .ok { success := true, error := none } := by
  simp [submitToListmonk, submitToListmonkTry, h, Except.bind, hok]

theorem submitToListmonk_of_text_error (fetch : Fetch) (name email : JsString)
    (resp : UpstreamResponse) (err : JsError)
    (h : fetch (listmonkRequest name email) = .ok resp) (hok : resp.ok = false)
    (ht : resp.text = .error err) :
    submitToListmonk fetch name email =
      .ok { success := false,
            error := some (lit "Error de conexión. Inténtalo de nuevo más tarde.") } := by
  simp [submitToListmonk, submitToListmonkTry, h, Except.bind, hok, ht]

theorem submitToListmonk_of_status (fetch : Fetch) (name email : JsString)
    (resp : UpstreamResponse) (body : JsString)
    (h : fetch (listmonkRequest name email) = .ok resp) (hok : resp.ok = false)
    (ht : resp.text = .ok body) :
    submitToListmonk fetch name email =
      .ok { success := false,
            error := some (if resp.status = 409 then lit "Ya estás suscrito a nuestra newsletter"
              else if resp.status = 400 then lit "Datos de suscripción inválidos"
              else lit "Error al procesar la suscripción") } := by
  simp only [submitToListmonk, submitToListmonkTry, h, Except.bind, hok, ht, Bool.not_false,
    if_true, beq_iff_eq]
  split_ifs <;> rfl

theorem ok_false_of_not_2xx (resp : UpstreamResponse)
    (h : ¬ (200 ≤ resp.status ∧ resp.status ≤ 299)) : resp.ok = false := by
  simp only [UpstreamResponse.ok, Bool.and_eq_false_iff, decide_eq_false_iff_not]
  by_contra hc
  push_neg at hc
  exact h hc

/-- C11 (code at the failing input). A request within its quota whose body is the JSON value
`null`: `validateInput` throws a `TypeError` on reading `data.name`, the outer `catch` answers
500 with the internal-error message, not 400, and `submitToListmonk` is not called. -/
theorem null_body_internal_error :
    (checkRateLimit emptyStore sampleEnv.now (clientIPOf nullBodyRequest)).1 = true ∧
    validateInput .null = .error .typeError ∧
    (POST sampleEnv emptyStore nullBodyRequest).response = internalErrorResponse ∧
    (POST sampleEnv emptyStore nullBodyRequest).response.status = 500 ∧
    (POST sampleEnv emptyStore nullBodyRequest).log = [.json, .validateInput] := by
  exact ⟨rfl, rfl, rfl, rfl, rfl⟩

/-- Counterexample to C12 as stated: a valid request within its quota whose upstream answers
503 gets status 400, not 500. -/
theorem upstream_unavailable_counterexample :
    (POST (sampleEnvStatus 503) emptyStore
        (sampleRequest (lit "Test User") (lit "test@example.com"))).response =
      jsonResponse 400
        { success := false, error := some (lit "Error al procesar la suscripción") } ∧
    (POST (sampleEnvStatus 503) emptyStore
        (sampleRequest (lit "Test User") (lit "test@example.com"))).response.status ≠ 500 := by
  exact ⟨rfl, by decide⟩

/-- C12 (amended). Upstream unavailability is a 400: for every valid request within its quota,
a rejected `fetch` gives status 400 with the connection message; a non-2xx status other than
409 and 400 gives status 400 with the generic processing message when the error body can be
read, and with the connection message when it cannot. -/
theorem upstream_unavailable_is_400 (env : Env) (store : RateLimitStore) (request : Request)
    (data : JsValue) (r : ValidationResult) (n e : JsString)
    (hlim : (checkRateLimit store env.now (clientIPOf request)).1 = true)
    (hj : request.json = .ok data) (hv : validateInput data = .ok r)
    (hvalid : r.isValid = true)
    (hn : getProp data (lit "name") = .ok (.string n))
    (he : getProp data (lit "email") = .ok (.string e)) :
    (∀ err, env.fetch (listmonkRequest (sanitizeInput n) (sanitizeInput e)) = .error err →
      (POST env store request).response =
        jsonResponse 400
          { success := false,
            error := some (lit "Error de conexión. Inténtalo de nuevo más tarde.") }) ∧
    (∀ resp, env.fetch (listmonkRequest (sanitizeInput n) (sanitizeInput e)) = .ok resp →
      ¬ (200 ≤ resp.status ∧ resp.status ≤ 299) → resp.status ≠ 409 → resp.status ≠ 400 →
      (∀ body, resp.text = .ok body →
        (POST env store request).response =
          jsonResponse 400
            { success := false, error := some (lit "Error al procesar la suscripción") }) ∧
      (∀ err, resp.text = .error err →
        (POST env store request).response =
          jsonResponse 400
            { success := false,
              error := some (lit "Error de conexión. Inténtalo de nuevo más tarde.") })) := by
  refine ⟨?_, ?_⟩
  · intro err hf
    have hs := submitToListmonk_of_fetch_error env.fetch _ _ err hf
    exact (POST_valid_request env store request data r n e _ hlim hj hv hvalid hn he hs).1
  · intro resp hf h2xx h409 h400
    have hok := ok_false_of_not_2xx resp h2xx
    refine ⟨?_, ?_⟩
    · intro body ht
      have hs := submitToListmonk_of_status env.fetch _ _ resp body hf hok ht
      rw [if_neg h409, if_neg h400] at hs
      exact (POST_valid_request env store request data r n e _ hlim hj hv hvalid hn he hs).1
    · intro err ht
      have hs := submitToListmonk_of_text_error env.fetch _ _ resp err hf hok ht
      exact (POST_valid_request env store request data r n e _ hlim hj hv hvalid hn he hs).1

/-- Witness for C12 (amended): the valid test request against an upstream answering 503. -/
theorem upstream_unavailable_is_400_witness :
    (POST (sampleEnvStatus 503) emptyStore
        (sampleRequest (lit "Test User") (lit "test@example.com"))).response =
      jsonResponse 400
        { success := false, error := some (lit "Error al procesar la suscripción") } :=
  ((upstream_unavailable_is_400 (sampleEnvStatus 503) emptyStore
      (sampleRequest (lit "Test User") (lit "test@example.com")) _ ⟨true, []⟩
      (lit "Test User") (lit "test@example.com") rfl rfl rfl rfl rfl rfl).2
    { status := 503, text := .ok [] } rfl (by decide) (by decide) (by decide)).1 [] rfl

/-- Counterexample to C13 as stated: the upstream answers 409 and its body cannot be read; the
handler answers 400 with the connection message, not the already-subscribed message. -/
theorem upstream_rejection_counterexample :
    (POST (sampleEnvUnreadable 409) emptyStore
        (sampleRequest (lit "Test User") (lit "test@example.com"))).response =
      jsonResponse 400
        { success := false,
          error := some (lit "Error de conexión. Inténtalo de nuevo más tarde.") } ∧
    lit "Error de conexión. Inténtalo de nuevo más tarde." ≠
      lit "Ya estás suscrito a nuestra newsletter" := by
  exact ⟨rfl, by decide⟩

/-- C13 (amended). Upstream rejection is a 400 with a specific message: for every valid
request within its quota whose upstream answers 409 (respectively 400) with a readable body,
the handler answers status 400 with body `{success: false, error}` where `error` is the
already-subscribed message (respectively the invalid-data message). -/
theorem upstream_rejection_is_400 (env : Env) (store : RateLimitStore) (request : Request)
    (data : JsValue) (r : ValidationResult) (n e : JsString) (resp : UpstreamResponse)
    (body : JsString)
    (hlim : (checkRateLimit store env.now (clientIPOf request)).1 = true)
    (hj : request.json = .ok data) (hv : validateInput data = .ok r)
    (hvalid : r.isValid = true)
    (hn : getProp data (lit "name") = .ok (.string n))
    (he : getProp data (lit "email") = .ok (.string e))
    (hf : env.fetch (listmonkRequest (sanitizeInput n) (sanitizeInput e)) = .ok resp)
    (ht : resp.text = .ok body) :
    (resp.status = 409 →
      (POST env store request).response =
        jsonResponse 400
          { success := false, error := some (lit "Ya estás suscrito a nuestra newsletter") }) ∧
    (resp.status = 400 →
      (POST env store request).response =
        jsonResponse 400
          { success := false, error := some (lit "Datos de suscripción inválidos") }) := by
  refine ⟨?_, ?_⟩
  · intro h409
    have hok : resp.ok = false := ok_false_of_not_2xx resp (by omega)
    have hs := submitToListmonk_of_status env.fetch _ _ resp body hf hok ht
    rw [if_pos h409] at hs
    exact (POST_valid_request env store request data r n e _ hlim hj hv hvalid hn he hs).1
  · intro h400
    have hok : resp.ok = false := ok_false_of_not_2xx resp (by omega)
    have hs := submitToListmonk_of_status env.fetch _ _ resp body hf hok ht
    rw [if_neg (by omega), if_pos h400] at hs
    exact (POST_valid_request env store request data r n e _ hlim hj hv hvalid hn he hs).1

/-- Witness for C13 (amended): the valid test request against an upstream answering 409. -/
theorem upstream_rejection_is_400_witness :
    (POST (sampleEnvStatus 409) emptyStore
        (sampleRequest (lit "Test User") (lit "test@example.com"))).response =
      jsonResponse 400
        { success := false, error := some (lit "Ya estás suscrito a nuestra newsletter") } :=
  (upstream_rejection_is_400 (sampleEnvStatus 409) emptyStore
      (sampleRequest (lit "Test User") (lit "test@example.com")) _ ⟨true, []⟩
      (lit "Test User") (lit "test@example.com") { status := 409, text := .ok [] } []
      rfl rfl rfl rfl rfl rfl rfl rfl).1 rfl

/-- C14. Subscription success: for every request within its quota whose JSON body passes
`validateInput` and whose upstream answers a 2xx status, the handler answers status 200 with
body `{success: true}` and no `error`. -/
theorem subscription_success (env : Env) (store : RateLimitStore) (request : Request)
    (data : JsValue) (r : ValidationResult) (n e : JsString) (resp : UpstreamResponse)
    (hlim : (checkRateLimit store env.now (clientIPOf request)).1 = true)
    (hj : request.json = .ok data) (hv : validateInput data = .ok r)
    (hvalid : r.isValid = true)
    (hn : getProp data (lit "name") = .ok (.string n))
    (he : getProp data (lit "email") = .ok (.string e))
    (hf : env.fetch (listmonkRequest (sanitizeInput n) (sanitizeInput e)) = .ok resp)
    (h200 : 200 ≤ resp.status) (h299 : resp.status ≤ 299) :
    (POST env store request).response =
      { status := 200, headers := [(lit "Content-Type", lit "application/json")],
        body := { success := true, error := none } } := by
  have hok : resp.ok = true := by simp [UpstreamResponse.ok, h200, h299]
  have hs := submitToListmonk_of_ok env.fetch _ _ resp hf hok
  exact (POST_valid_request env store request data r n e _ hlim hj hv hvalid hn he hs).1

/-- Witness for C14: the body with name `Test User` and e-mail `test@example.com`. -/
theorem subscription_success_witness :
    (POST sampleEnv emptyStore
        (sampleRequest (lit "Test User") (lit "test@example.com"))).response =
      { status := 200, headers := [(lit "Content-Type", lit "application/json")],
        body := { success := true, error := none } } :=
  subscription_success sampleEnv emptyStore
    (sampleRequest (lit "Test User") (lit "test@example.com")) _ ⟨true, []⟩
    (lit "Test User") (lit "test@example.com") { status := 200, text := .ok [] }
    rfl rfl rfl rfl rfl rfl rfl (by decide) (by decide)

/-- C15. The live newsletter handler is constant: for every request, environment and store it
answers 503 with `Content-Type: application/json` and the temporarily-unavailable body, leaves
the rate-limit store as it was and makes no call. -/
theorem live_POST_constant (env : Env) (store : RateLimitStore) (request : Request) :
    (Live.POST env store request).response =
      { status := 503, headers := [(lit "Content-Type", lit "application/json")],
        body := { success := false,
                  error := some (lit "Newsletter functionality is temporarily unavailable") } } ∧
    (Live.POST env store request).store = store ∧
    (Live.POST env store request).log = [] ∧
    (∀ (env2 : Env) (store2 : RateLimitStore) (request2 : Request),
      (Live.POST env2 store2 request2).response = (Live.POST env store request).response) :=
  ⟨rfl, rfl, rfl, fun _ _ _ => rfl⟩

end Newsletter

/-! ### Contact handler -/

namespace Contact

theorem toBoolean_lookup (fields : List (JsString × JsValue)) (key : JsString) :
    toBoolean ((fields.lookup key).getD .undefined) = !absentOrFalsy fields key := by
  unfold absentOrFalsy
  cases fields.lookup key <;> simp [toBoolean]

/-- The handler when a field is falsy: the 400 response and no message sent. -/
theorem POST_falsy (env : Env) (request : Request) (body asunto descripcion email : JsValue)
    (hj : request.json = .ok body)
    (ha : getProp body (lit "asunto") = .ok asunto)
    (hd : getProp body (lit "descripcion") = .ok descripcion)
    (he : getProp body (lit "email") = .ok email)
    (hf : (!toBoolean asunto || !toBoolean descripcion || !toBoolean email) = true) :
    POST env request =
      { response := errorResponse 400 (lit "Faltan campos obligatorios."), sent := [] } := by
  unfold POST POSTTry
  simp only [hj, ha, hd, he, hf, if_true]

/-- The handler when the three fields are truthy: the outcome follows the construction of the
message and the answer of the e-mail service. -/
theorem POST_truthy (env : Env) (request : Request) (body asunto descripcion email : JsValue)
    (hj : request.json = .ok body)
    (ha : getProp body (lit "asunto") = .ok asunto)
    (hd : getProp body (lit "descripcion") = .ok descripcion)
    (he : getProp body (lit "email") = .ok email)
    (hf : (!toBoolean asunto || !toBoolean descripcion || !toBoolean email) = false) :
    POST env request =
      match buildMessage env.numberToString asunto descripcion email with
      | .error _ =>
        { response := errorResponse 500 (lit "Error procesando la solicitud."), sent := [] }
      | .ok message =>
        match env.send message with
        | .error _ =>
          { response := errorResponse 500 (lit "Error procesando la solicitud."),
            sent := [message] }
        | .ok result =>
          match result.error with
          | some error => { response := errorResponse 500 error.message, sent := [message] }
          | none => { response := successResponse, sent := [message] } := by
  unfold POST POSTTry
  simp only [hj, ha, hd, he, hf, Bool.false_eq_true, if_false]
  cases buildMessage env.numberToString asunto descripcion email with
  | error err => rfl
  | ok message =>
    simp only
    cases env.send message with
    | error err => rfl
    | ok result =>
      simp only
      cases result.error <;> rfl

/-- When the three fields are truthy the status is 200 or 500. -/
theorem POST_truthy_status (env : Env) (request : Request)
    (body asunto descripcion email : JsValue)
    (hj : request.json = .ok body)
    (ha : getProp body (lit "asunto") = .ok asunto)
    (hd : getProp body (lit "descripcion") = .ok descripcion)
    (he : getProp body (lit "email") = .ok email)
    (hf : (!toBoolean asunto || !toBoolean descripcion || !toBoolean email) = false) :
    (POST env request).response.status ≠ 400 := by
  rw [POST_truthy env request body asunto descripcion email hj ha hd he hf]
  cases buildMessage env.numberToString asunto descripcion email with
  | error err => simp [errorResponse]
  | ok message =>
    simp only
    cases env.send message with
    | error err => simp [errorResponse]
    | ok result =>
      simp only
      cases result.error <;> simp [errorResponse, successResponse]

/-- Every message passed to the e-mail service was built from the three truthy fields of the
parsed body, and at most one message is passed. -/
theorem POST_sent_inv (env : Env) (request : Request) :
    (POST env request).sent.length ≤ 1 ∧
    ∀ m ∈ (POST env request).sent,
      ∃ body asunto descripcion email, request.json = .ok body ∧
        getProp body (lit "asunto") = .ok asunto ∧
        getProp body (lit "descripcion") = .ok descripcion ∧
        getProp body (lit "email") = .ok email ∧
        toBoolean asunto = true ∧ toBoolean descripcion = true ∧ toBoolean email = true ∧
        buildMessage env.numberToString asunto descripcion email = .ok m := by
  cases hj : request.json with
  | error err =>
    have : POST env request =
        { response := errorResponse 500 (lit "Error procesando la solicitud."), sent := [] } := by
      unfold POST POSTTry
      simp only [hj]
    rw [this]
    simp
  | ok body =>
    cases ha : getProp body (lit "asunto") with
    | error err =>
      have : POST env request =
          { response := errorResponse 500 (lit "Error procesando la solicitud."),
            sent := [] } := by
        unfold POST POSTTry
        simp only [hj, ha]
      rw [this]
      simp
    | ok asunto =>
      have hd' : ∃ v, getProp body (lit "descripcion") = .ok v := by
        cases body <;> simp [getProp] at ha ⊢
      have he' : ∃ v, getProp body (lit "email") = .ok v := by
        cases body <;> simp [getProp] at ha ⊢
      obtain ⟨descripcion, hd⟩ := hd'
      obtain ⟨email, he⟩ := he'
      cases hf : (!toBoolean asunto || !toBoolean descripcion || !toBoolean email) with
      | true =>
        rw [POST_falsy env request body asunto descripcion email hj ha hd he hf]
        simp
      | false =>
        have ht : toBoolean asunto = true ∧ toBoolean descripcion = true ∧
            toBoolean email = true := by
          simp only [Bool.or_eq_false_iff, Bool.not_eq_false'] at hf
          exact ⟨hf.1.1, hf.1.2, hf.2⟩
        rw [POST_truthy env request body asunto descripcion email hj ha hd he hf]
        cases hb : buildMessage env.numberToString asunto descripcion email with
        | error err => simp
        | ok message =>
          simp only
          cases env.send message with
          | error err =>
            refine ⟨by simp, ?_⟩
            intro m hm
            simp only [List.mem_singleton] at hm
            subst hm
            exact ⟨body, asunto, descripcion, email, rfl, ha, hd, he, ht.1, ht.2.1, ht.2.2, hb⟩
          | ok result =>
            simp only
            cases result.error with
            | none =>
              refine ⟨by simp, ?_⟩
              intro m hm
              simp only [List.mem_singleton] at hm
              subst hm
              exact ⟨body, asunto, descripcion, email, rfl, ha, hd, he, ht.1, ht.2.1, ht.2.2, hb⟩
            | some error =>
              refine ⟨by simp, ?_⟩
              intro m hm
              simp only [List.mem_singleton] at hm
              subst hm
              exact ⟨body, asunto, descripcion, email, rfl, ha, hd, he, ht.1, ht.2.1, ht.2.2, hb⟩

theorem jsToString_string (numberToString : Nat → JsString) (s : JsString) :
    jsToString numberToString (.string s) = .ok s := by
  simp [jsToString]

theorem toBoolean_string (s : JsString) : toBoolean (.string s) = true ↔ s ≠ [] := by
  cases s <;> simp [toBoolean]

/-- C16. Contact validation: for every request whose body parses to a JSON object, the contact
handler answers 400 with body `{error: 'Faltan campos obligatorios.'}` if and only if one of
`asunto`, `descripcion`, `email` is absent or falsy; and then no e-mail is sent. -/
theorem contact_validation (env : Env) (request : Request)
    (fields : List (JsString × JsValue)) (hj : request.json = .ok (.object fields)) :
    ((POST env request).response = errorResponse 400 (lit "Faltan campos obligatorios.") ↔
      (absentOrFalsy fields (lit "asunto") = true ∨
        absentOrFalsy fields (lit "descripcion") = true ∨
        absentOrFalsy fields (lit "email") = true)) ∧
    ((absentOrFalsy fields (lit "asunto") = true ∨
        absentOrFalsy fields (lit "descripcion") = true ∨
        absentOrFalsy fields (lit "email") = true) →
      (POST env request).sent = []) := by
  have ha : getProp (.object fields) (lit "asunto") =
      .ok ((fields.lookup (lit "asunto")).getD .undefined) := rfl
  have hd : getProp (.object fields) (lit "descripcion") =
      .ok ((fields.lookup (lit "descripcion")).getD .undefined) := rfl
  have he : getProp (.object fields) (lit "email") =
      .ok ((fields.lookup (lit "email")).getD .undefined) := rfl
  cases hf : (!toBoolean ((fields.lookup (lit "asunto")).getD .undefined) ||
      !toBoolean ((fields.lookup (lit "descripcion")).getD .undefined) ||
      !toBoolean ((fields.lookup (lit "email")).getD .undefined)) with
  | true =>
    have hany : absentOrFalsy fields (lit "asunto") = true ∨
        absentOrFalsy fields (lit "descripcion") = true ∨
        absentOrFalsy fields (lit "email") = true := by
      simpa [toBoolean_lookup, or_assoc] using hf
    rw [POST_falsy env request _ _ _ _ hj ha hd he hf]
    exact ⟨⟨fun _ => hany, fun _ => rfl⟩, fun _ => rfl⟩
  | false =>
    have hnone : ¬ (absentOrFalsy fields (lit "asunto") = true ∨
        absentOrFalsy fields (lit "descripcion") = true ∨
        absentOrFalsy fields (lit "email") = true) := by
      simpa [toBoolean_lookup, or_assoc, and_assoc] using hf
    have hst := POST_truthy_status env request _ _ _ _ hj ha hd he hf
    refine ⟨⟨fun h => ?_, fun h => absurd h hnone⟩, fun h => absurd h hnone⟩
    rw [h] at hst
    exact absurd rfl hst

/-- Witness for C16: a blank subject, a 5000-character description and a malformed address are
not rejected; an empty description is, and nothing is sent. -/
theorem contact_validation_witness :
    (POST stubEnv { json := .ok (.object [(lit "asunto", .string (lit " ")),
        (lit "descripcion", .string (List.replicate 5000 97)),
        (lit "email", .string (lit "not an address"))]) }).response ≠
      errorResponse 400 (lit "Faltan campos obligatorios.") ∧
    (POST stubEnv { json := .ok (.object [(lit "asunto", .string (lit "Hola")),
        (lit "descripcion", .string (lit "")),
        (lit "email", .string (lit "a@b.com"))]) }).sent = [] := by
  constructor
  · intro h
    rcases (contact_validation stubEnv _ _ rfl).1.1 h with h1 | h1 | h1 <;>
      exact absurd h1 (by decide)
  · exact (contact_validation stubEnv _ _ rfl).2 (Or.inr (Or.inl rfl))

/-- C17. Contact outcome mapping: for every request with the three fields truthy, the message
built from them is the one message passed to the e-mail service; if the service returns no
error the handler answers 200 `{success: true}`, if it returns an error object 500 with that
error's message, and if the call throws, or parsing the body throws, 500 with the generic
message. For string fields the message is always built. The end-to-end scenario against a
succeeding stub gives 200 `{success: true}`. -/
theorem contact_outcome_mapping :
    (∀ (env : Env) (request : Request) (body asunto descripcion email : JsValue)
        (m : EmailMessage),
      request.json = .ok body →
      getProp body (lit "asunto") = .ok asunto →
      getProp body (lit "descripcion") = .ok descripcion →
      getProp body (lit "email") = .ok email →
      toBoolean asunto = true → toBoolean descripcion = true → toBoolean email = true →
      buildMessage env.numberToString asunto descripcion email = .ok m →
      (POST env request).sent = [m] ∧
      (∀ r, env.send m = .ok r → r.error = none →
        (POST env request).response =
          { status := 200, headers := [], body := .object [(lit "success", .bool true)] }) ∧
      (∀ r err, env.send m = .ok r → r.error = some err →
        (POST env request).response =
          { status := 500, headers := [],
            body := .object [(lit "error", .string err.message)] }) ∧
      (∀ x, env.send m = .error x →
        (POST env request).response =
          { status := 500, headers := [],
            body := .object [(lit "error", .string (lit "Error procesando la solicitud."))] })) ∧
    (∀ (env : Env) (request : Request) (x : JsError), request.json = .error x →
      (POST env request).response =
        { status := 500, headers := [],
          body := .object [(lit "error", .string (lit "Error procesando la solicitud."))] }) ∧
    (∀ (numberToString : Nat → JsString) (asunto descripcion email : JsString),
      ∃ m, buildMessage numberToString (.string asunto) (.string descripcion)
        (.string email) = .ok m) ∧
    (POST stubEnv holaRequest).response =
      { status := 200, headers := [], body := .object [(lit "success", .bool true)] } := by
  refine ⟨?_, ?_, fun ns a d e => ?_, rfl⟩
  rotate_right
  · simp only [buildMessage, jsToString_string, Except.bind]
    exact ⟨_, rfl⟩
  · intro env request body asunto descripcion email m hj ha hd he hta htd hte hb
    have hf : (!toBoolean asunto || !toBoolean descripcion || !toBoolean email) = false := by
      simp [hta, htd, hte]
    have hP := POST_truthy env request body asunto descripcion email hj ha hd he hf
    rw [hb] at hP
    simp only at hP
    refine ⟨?_, ?_, ?_, ?_⟩
    · rw [hP]
      cases env.send m with
      | error x => rfl
      | ok r => cases hr : r.error <;> simp [hr]
    · intro r hs hr
      rw [hP, hs]
      simp only [hr]
      rfl
    · intro r err hs hr
      rw [hP, hs]
      simp only [hr]
      rfl
    · intro x hs
      rw [hP, hs]
      rfl
  · intro env request x hj
    unfold POST POSTTry
    simp only [hj]
    rfl

/-- Witness for C17: the end-to-end scenario passes exactly one message to the service. -/
theorem contact_outcome_mapping_witness :
    (POST stubEnv holaRequest).sent =
      [{ from_ := lit "Contacto Coding Pit <no-reply@coding-pit.com>",
         to_ := [lit "juanje.cilla@gmail.com"],
         subject := lit "[Contacto] Hola",
         reply_to := .string (lit "a@b.com"),
         text := lit "Asunto: Hola\nEmail: a@b.com\n\nTest" }] :=
  (contact_outcome_mapping.1 stubEnv holaRequest _ _ _ _ _ rfl rfl rfl rfl rfl rfl rfl rfl).1

/-- C18. Contact e-mail construction: for every accepted request with string fields the single
message passed to the e-mail service has the fixed sender and recipient, subject
`[Contacto] ` followed by `asunto`, `reply_to` equal to `email` and the text built from
`asunto`, `email` and `descripcion`; for every request at most one message is passed, its
sender and recipient are the fixed ones, and its subject and text are built from the string
conversions of the fields. -/
theorem contact_email_construction :
    (∀ (env : Env) (request : Request) (body : JsValue) (asunto descripcion email : JsString),
      request.json = .ok body →
      getProp body (lit "asunto") = .ok (.string asunto) →
      getProp body (lit "descripcion") = .ok (.string descripcion) →
      getProp body (lit "email") = .ok (.string email) →
      asunto ≠ [] → descripcion ≠ [] → email ≠ [] →
      (POST env request).sent =
        [{ from_ := lit "Contacto Coding Pit <no-reply@coding-pit.com>",
           to_ := [lit "juanje.cilla@gmail.com"],
           subject := lit "[Contacto] " ++ asunto,
           reply_to := .string email,
           text := lit "Asunto: " ++ asunto ++ lit "\nEmail: " ++ email ++ lit "\n\n" ++
             descripcion }]) ∧
    (∀ (env : Env) (request : Request),
      (POST env request).sent.length ≤ 1 ∧
      ∀ m ∈ (POST env request).sent,
        m.from_ = lit "Contacto Coding Pit <no-reply@coding-pit.com>" ∧
        m.to_ = [lit "juanje.cilla@gmail.com"] ∧
        ∃ body asunto descripcion email sa sd se, request.json = .ok body ∧
          getProp body (lit "asunto") = .ok asunto ∧
          getProp body (lit "descripcion") = .ok descripcion ∧
          getProp body (lit "email") = .ok email ∧
          jsToString env.numberToString asunto = .ok sa ∧
          jsToString env.numberToString descripcion = .ok sd ∧
          jsToString env.numberToString email = .ok se ∧
          m.subject = lit "[Contacto] " ++ sa ∧ m.reply_to = email ∧
          m.text = lit "Asunto: " ++ sa ++ lit "\nEmail: " ++ se ++ lit "\n\n" ++ sd) := by
  refine ⟨?_, ?_⟩
  · intro env request body asunto descripcion email hj ha hd he hna hnd hne
    have hf : (!toBoolean (.string asunto) || !toBoolean (.string descripcion) ||
        !toBoolean (.string email)) = false := by
      simp [(toBoolean_string asunto).2 hna, (toBoolean_string descripcion).2 hnd,
        (toBoolean_string email).2 hne]
    have hP := POST_truthy env request body _ _ _ hj ha hd he hf
    have hb : buildMessage env.numberToString (.string asunto) (.string descripcion)
        (.string email) =
        .ok { from_ := lit "Contacto Coding Pit <no-reply@coding-pit.com>",
              to_ := [lit "juanje.cilla@gmail.com"],
              subject := lit "[Contacto] " ++ asunto,
              reply_to := .string email,
              text := lit "Asunto: " ++ asunto ++ lit "\nEmail: " ++ email ++ lit "\n\n" ++
                descripcion } := by
      simp [buildMessage, jsToString_string, Except.bind]
    rw [hb] at hP
    simp only at hP
    rw [hP]
    cases env.send _ with
    | error x => rfl
    | ok r => cases hr : r.error <;> simp [hr]
  · intro env request
    obtain ⟨hlen, hmem⟩ := POST_sent_inv env request
    refine ⟨hlen, ?_⟩
    intro m hm
    obtain ⟨body, asunto, descripcion, email, hj, ha, hd, he, -, -, -, hb⟩ := hmem m hm
    unfold buildMessage at hb
    cases hsa : jsToString env.numberToString asunto with
    | error x => simp [hsa, Except.bind] at hb
    | ok sa =>
      cases hse : jsToString env.numberToString email with
      | error x => simp [hsa, hse, Except.bind] at hb
      | ok se =>
        cases hsd : jsToString env.numberToString descripcion with
        | error x => simp [hsa, hse, hsd, Except.bind] at hb
        | ok sd =>
          simp only [hsa, hse, hsd, Except.bind, Except.ok.injEq] at hb
          subst hb
          exact ⟨rfl, rfl, body, asunto, descripcion, email, sa, sd, se, hj, ha, hd, he, hsa,
            hsd, hse, rfl, rfl, rfl⟩

/-- Witness for C18: the message of the end-to-end scenario. -/
theorem contact_email_construction_witness :
    (POST stubEnv holaRequest).sent.length ≤ 1 ∧
    (POST stubEnv holaRequest).sent =
      [{ from_ := lit "Contacto Coding Pit <no-reply@coding-pit.com>",
         to_ := [lit "juanje.cilla@gmail.com"],
         subject := lit "[Contacto] " ++ lit "Hola",
         reply_to := .string (lit "a@b.com"),
         text := lit "Asunto: " ++ lit "Hola" ++ lit "\nEmail: " ++ lit "a@b.com" ++
           lit "\n\n" ++ lit "Test" }] :=
  ⟨(contact_email_construction.2 stubEnv holaRequest).1,
   contact_email_construction.1 stubEnv holaRequest _ (lit "Hola") (lit "Test") (lit "a@b.com")
     rfl rfl rfl rfl (by decide) (by decide) (by decide)⟩

end Contact

/-! ### Checkout handler -/

namespace Checkout

/-- The check `['mensual', 'trimestral', 'anual'].includes(plan)` holds exactly for the three
strings. -/
theorem includes_plan_iff (plan : JsValue) :
    arrayIncludes [.string (lit "mensual"), .string (lit "trimestral"), .string (lit "anual")]
        plan = true ↔
      ∃ p, plan = .string p ∧ p ∈ [lit "mensual", lit "trimestral", lit "anual"] := by
  cases plan with
  | string s =>
    simp only [arrayIncludes, sameValueZero, List.any_cons, List.any_nil, Bool.or_false,
      Bool.or_eq_true, beq_iff_eq, JsValue.string.injEq, exists_eq_left', List.mem_cons,
      List.mem_singleton, List.not_mem_nil, or_false]
    constructor
    · rintro (h | h | h)
      · exact Or.inl h.symm
      · exact Or.inr (Or.inl h.symm)
      · exact Or.inr (Or.inr h.symm)
    · rintro (h | h | h)
      · exact Or.inl h.symm
      · exact Or.inr (Or.inl h.symm)
      · exact Or.inr (Or.inr h.symm)
  | _ => simp [arrayIncludes, sameValueZero]

/-- The handler on a plan that fails the check: the 400 response and no call. -/
theorem POST_rejected (env : Env) (request : Request) (body plan : JsValue)
    (hj : request.json = .ok body) (hp : getProp body (lit "plan") = .ok plan)
    (hn : arrayIncludes [.string (lit "mensual"), .string (lit "trimestral"),
      .string (lit "anual")] plan = false) :
    POST env request = { response := errorResponse 400 (lit "Invalid plan"), created := [] } := by
  unfold POST POSTTry
  simp only [hj, hp, hn, Bool.not_false, if_true]

/-- The text the template literals produce for `request.headers.get('origin')`. -/
theorem jsToString_origin (numberToString : Nat → JsString) (request : Request) :
    jsToString numberToString (originValue request) =
      .ok (match request.origin with
        | some o => o
        | none => lit "null") := by
  unfold originValue
  cases request.origin <;> simp [jsToString]

/-- The handler on one of the three plans: one call with the session parameters, and the
response follows the answer of the payment processor. -/
theorem POST_accepted (env : Env) (request : Request) (body : JsValue) (p : JsString)
    (hj : request.json = .ok body) (hp : getProp body (lit "plan") = .ok (.string p))
    (hin : p ∈ [lit "mensual", lit "trimestral", lit "anual"]) :
    POST env request =
      match env.create
        { payment_method_types := [lit "card"],
          line_items := [{ price := (PRICE_IDS.lookup p).getD .undefined, quantity := 1 }],
          mode := lit "payment",
          success_url := (match request.origin with
            | some o => o
            | none => lit "null") ++ lit "/gracias?plan=" ++ p,
          cancel_url := (match request.origin with
            | some o => o
            | none => lit "null") ++ lit "/formacion/mentorias?cancel=true" } with
      | .error _ =>
        { response := errorResponse 500 (lit "Stripe error"),
          created := [
            { payment_method_types := [lit "card"],
              line_items := [{ price := (PRICE_IDS.lookup p).getD .undefined, quantity := 1 }],
              mode := lit "payment",
              success_url := (match request.origin with
                | some o => o
                | none => lit "null") ++ lit "/gracias?plan=" ++ p,
              cancel_url := (match request.origin with
                | some o => o
                | none => lit "null") ++ lit "/formacion/mentorias?cancel=true" }] }
      | .ok session =>
        { response :=
            { status := 200, headers := [],
              body := .object [(lit "url",
                match session.url with
                | some u => .string u
                | none => .null)] },
          created := [
            { payment_method_types := [lit "card"],
              line_items := [{ price := (PRICE_IDS.lookup p).getD .undefined, quantity := 1 }],
              mode := lit "payment",
              success_url := (match request.origin with
                | some o => o
                | none => lit "null") ++ lit "/gracias?plan=" ++ p,
              cancel_url := (match request.origin with
                | some o => o
                | none => lit "null") ++ lit "/formacion/mentorias?cancel=true" }] } := by
  have hinc : arrayIncludes [.string (lit "mensual"), .string (lit "trimestral"),
      .string (lit "anual")] (.string p) = true := (includes_plan_iff _).2 ⟨p, rfl, hin⟩
  unfold POST POSTTry
  simp only [hj, hp, hinc, Bool.not_true, Bool.false_eq_true, if_false, buildParams,
    jsToString_origin, Except.bind, jsToString]
  cases env.create _ <;> rfl

/-- Checkout plan validation on the bodies from which `plan` can be read: the payment processor
is called only if `plan` is one of the strings `mensual`, `trimestral`, `anual`; for every
other plan value read from the body (a different string, a non-string, or absent) the handler
answers 400 with body `{error: 'Invalid plan'}` and makes no call. The body `null`, from which
`plan` cannot be read, is not covered. -/
theorem checkout_plan_validation :
    (∀ (env : Env) (request : Request), ∀ params ∈ (POST env request).created,
      ∃ body p, request.json = .ok body ∧ getProp body (lit "plan") = .ok (.string p) ∧
        p ∈ [lit "mensual", lit "trimestral", lit "anual"]) ∧
    (∀ (env : Env) (request : Request) (body plan : JsValue),
      request.json = .ok body → getProp body (lit "plan") = .ok plan →
      (¬ ∃ p, plan = .string p ∧ p ∈ [lit "mensual", lit "trimestral", lit "anual"]) →
      (POST env request).response =
        { status := 400, headers := [],
          body := .object [(lit "error", .string (lit "Invalid plan"))] } ∧
      (POST env request).created = []) := by
  refine ⟨?_, ?_⟩
  · intro env request params hmem
    cases hj : request.json with
    | error x =>
      have : POST env request =
          { response := errorResponse 500 (lit "Stripe error"), created := [] } := by
        unfold POST POSTTry
        simp only [hj]
      rw [this] at hmem
      simp at hmem
    | ok body =>
      cases hp : getProp body (lit "plan") with
      | error x =>
        have : POST env request =
            { response := errorResponse 500 (lit "Stripe error"), created := [] } := by
          unfold POST POSTTry
          simp only [hj, hp]
        rw [this] at hmem
        simp at hmem
      | ok plan =>
        cases hinc : arrayIncludes [.string (lit "mensual"), .string (lit "trimestral"),
            .string (lit "anual")] plan with
        | false =>
          rw [POST_rejected env request body plan hj hp hinc] at hmem
          simp at hmem
        | true =>
          obtain ⟨p, rfl, hin⟩ := (includes_plan_iff plan).1 hinc
          exact ⟨body, p, rfl, hp, hin⟩
  · intro env request body plan hj hp hnot
    have hinc : arrayIncludes [.string (lit "mensual"), .string (lit "trimestral"),
        .string (lit "anual")] plan = false := by
      cases h : arrayIncludes [.string (lit "mensual"), .string (lit "trimestral"),
          .string (lit "anual")] plan with
      | false => rfl
      | true => exact absurd ((includes_plan_iff plan).1 h) hnot
    rw [POST_rejected env request body plan hj hp hinc]
    exact ⟨rfl, rfl⟩

/-- Instances of the plan validation: the plan `semanal`, a numeric plan and an absent
plan. -/
theorem checkout_plan_validation_witness :
    (POST stubEnv (planRequest (lit "semanal"))).response =
      { status := 400, headers := [],
        body := .object [(lit "error", .string (lit "Invalid plan"))] } ∧
    (POST stubEnv { json := .ok (.object [(lit "plan", .number 0)]), origin := none }).created
      = [] ∧
    (POST stubEnv { json := .ok (.object []), origin := none }).created = [] := by
  refine ⟨(checkout_plan_validation.2 stubEnv (planRequest (lit "semanal"))
      (.object [(lit "plan", .string (lit "semanal"))]) (.string (lit "semanal")) rfl rfl ?_).1,
    (checkout_plan_validation.2 stubEnv
      { json := .ok (.object [(lit "plan", .number 0)]), origin := none }
      (.object [(lit "plan", .number 0)]) (.number 0) rfl rfl ?_).2,
    (checkout_plan_validation.2 stubEnv { json := .ok (.object []), origin := none }
      (.object []) .undefined rfl rfl ?_).2⟩
  · rintro ⟨p, hp, hin⟩
    cases hp
    revert hin
    decide
  · rintro ⟨p, hp, -⟩
    cases hp
  · rintro ⟨p, hp, -⟩
    cases hp

/-- C19 (code at the failing input). A request whose body is the JSON value `null` has no
accepted plan, yet the handler does not answer 400 `{error: 'Invalid plan'}`: the
destructuring `const { plan } = null` throws a `TypeError` and the `catch` answers 500
`{error: 'Stripe error'}`. No call is made. The sibling bodies `{}`, `5`, `[]` and the string
`x`, which have no plan either, all get the 400. -/
theorem checkout_null_body_stripe_error :
    getProp .null (lit "plan") = .error .typeError ∧
    (POST stubEnv (bodyRequest .null)).response =
      { status := 500, headers := [],
        body := .object [(lit "error", .string (lit "Stripe error"))] } ∧
    (POST stubEnv (bodyRequest .null)).response.status ≠ 400 ∧
    (POST stubEnv (bodyRequest .null)).created = [] ∧
    (POST stubEnv (bodyRequest (.object []))).response =
      { status := 400, headers := [],
        body := .object [(lit "error", .string (lit "Invalid plan"))] } ∧
    (POST stubEnv (bodyRequest (.number 4617315517961601024))).response =
      { status := 400, headers := [],
        body := .object [(lit "error", .string (lit "Invalid plan"))] } ∧
    (POST stubEnv (bodyRequest (.array []))).response =
      { status := 400, headers := [],
        body := .object [(lit "error", .string (lit "Invalid plan"))] } ∧
    (POST stubEnv (bodyRequest (.string (lit "x")))).response =
      { status := 400, headers := [],
        body := .object [(lit "error", .string (lit "Invalid plan"))] } :=
  ⟨rfl, rfl, by decide, rfl, rfl, rfl, rfl, rfl⟩

/-- C20. Checkout session construction: for every accepted plan `p` and origin header value
`o`, the one session-creation request has mode `payment`, payment method types `['card']`, one
line item with quantity 1 and price `PRICE_IDS[p]`, success URL `o + '/gracias?plan=' + p` and
cancel URL `o + '/formacion/mentorias?cancel=true'`; the table maps the three plans to three
pairwise distinct price identifiers. -/
theorem checkout_session_construction :
    (∀ (env : Env) (request : Request) (body : JsValue) (p o : JsString),
      request.json = .ok body → getProp body (lit "plan") = .ok (.string p) →
      p ∈ [lit "mensual", lit "trimestral", lit "anual"] → request.origin = some o →
      (POST env request).created =
        [{ payment_method_types := [lit "card"],
           line_items := [{ price := (PRICE_IDS.lookup p).getD .undefined, quantity := 1 }],
           mode := lit "payment",
           success_url := o ++ lit "/gracias?plan=" ++ p,
           cancel_url := o ++ lit "/formacion/mentorias?cancel=true" }]) ∧
    PRICE_IDS.map Prod.fst = [lit "mensual", lit "trimestral", lit "anual"] ∧
    PRICE_IDS.map Prod.snd =
      [.string (lit "price_xxx_mensual"), .string (lit "price_xxx_trimestral"),
       .string (lit "price_xxx_anual")] ∧
    lit "price_xxx_mensual" ≠ lit "price_xxx_trimestral" ∧
    lit "price_xxx_mensual" ≠ lit "price_xxx_anual" ∧
    lit "price_xxx_trimestral" ≠ lit "price_xxx_anual" := by
  refine ⟨?_, rfl, rfl, by decide, by decide, by decide⟩
  intro env request body p o hj hp hin ho
  rw [POST_accepted env request body p hj hp hin]
  simp only [ho]
  cases env.create _ <;> rfl

/-- Witness for C20: the plan `anual` from the origin `https://coding-pit.com`. -/
theorem checkout_session_construction_witness :
    (POST stubEnv (planRequest (lit "anual"))).created =
      [{ payment_method_types := [lit "card"],
         line_items := [{ price := (PRICE_IDS.lookup (lit "anual")).getD .undefined,
                          quantity := 1 }],
         mode := lit "payment",
         success_url := lit "https://coding-pit.com" ++ lit "/gracias?plan=" ++ lit "anual",
         cancel_url := lit "https://coding-pit.com" ++
           lit "/formacion/mentorias?cancel=true" }] :=
  checkout_session_construction.1 stubEnv (planRequest (lit "anual")) _ (lit "anual")
    (lit "https://coding-pit.com") rfl rfl (by decide) rfl

end Checkout

/-! ### Rate limiter: keys, counts, denied calls, isolation -/

namespace Newsletter

/-- A call for `a` leaves the entry of every other address as it was. -/
theorem check_frame (store : RateLimitStore) (now : Int) (a b : JsString) (h : b ≠ a) :
    (checkRateLimit store now a).2 b = store b :=
  check_other store now b a (fun hab => h hab.symm)

/-- Keys after one call: the keys before together with the address of the call. -/
theorem check_keys (store : RateLimitStore) (now : Int) (a b : JsString) :
    ((checkRateLimit store now a).2 b).isSome = true ↔ ((store b).isSome = true ∨ b = a) := by
  by_cases hb : b = a
  · subst hb
    obtain ⟨e, he, -⟩ := check_covers store now b
    simp [he]
  · rw [check_frame store now a b hb]
    simp [hb]

/-- Keys after a sequence of calls: the keys before together with the addresses called. -/
theorem runCalls_keys (b : JsString) :
    ∀ (calls : List (JsString × Int)) (store : RateLimitStore),
      ((runCalls store calls).2 b).isSome = true ↔
        ((store b).isSome = true ∨ b ∈ calls.map Prod.fst) := by
  intro calls
  induction calls with
  | nil => intro store; simp [runCalls]
  | cons c rest ih =>
    intro store
    obtain ⟨ip, now⟩ := c
    rw [runCalls_cons]
    simp only [ih, check_keys, List.map_cons, List.mem_cons]
    tauto

/-- One call keeps every count between 1 and 5. -/
theorem check_count_bounds (store : RateLimitStore) (now : Int) (a : JsString)
    (h : ∀ b e, store b = some e → 1 ≤ e.count ∧ e.count ≤ 5) :
    ∀ b e, (checkRateLimit store now a).2 b = some e → 1 ≤ e.count ∧ e.count ≤ 5 := by
  intro b e hb
  by_cases hba : b = a
  · subst hba
    cases hst : store b with
    | none =>
      rw [check_none _ _ _ hst] at hb
      simp only [storeSet_same] at hb
      cases hb
      exact ⟨le_refl _, by show 1 ≤ 5; omega⟩
    | some e0 =>
      by_cases h1 : e0.resetTime < now
      · rw [check_expired _ _ _ e0 hst h1] at hb
        simp only [storeSet_same] at hb
        cases hb
        exact ⟨le_refl _, by show 1 ≤ 5; omega⟩
      · by_cases h2 : e0.count < 5
        · rw [check_incr _ _ _ e0 hst (by omega) h2] at hb
          simp only [storeSet_same] at hb
          cases hb
          show 1 ≤ e0.count + 1 ∧ e0.count + 1 ≤ 5
          omega
        · rw [check_full _ _ _ e0 hst (by omega) (by omega)] at hb
          exact h b e hb
  · rw [check_frame store now a b hba] at hb
    exact h b e hb

theorem runCalls_count_bounds :
    ∀ (calls : List (JsString × Int)) (store : RateLimitStore),
      (∀ b e, store b = some e → 1 ≤ e.count ∧ e.count ≤ 5) →
      ∀ b e, (runCalls store calls).2 b = some e → 1 ≤ e.count ∧ e.count ≤ 5 := by
  intro calls
  induction calls with
  | nil => intro store h; exact h
  | cons c rest ih =>
    intro store h
    obtain ⟨ip, now⟩ := c
    rw [runCalls_cons]
    exact ih _ (check_count_bounds store now ip h)

/-- A denied call returns the store it was given. -/
theorem check_denied (store : RateLimitStore) (now : Int) (a : JsString)
    (h : (checkRateLimit store now a).1 = false) : (checkRateLimit store now a).2 = store := by
  unfold checkRateLimit at h ⊢
  split at h
  · simp at h
  · split_ifs at h ⊢
    rfl

theorem runCalls_all_denied :
    ∀ (calls : List (JsString × Int)) (store : RateLimitStore),
      (∀ r ∈ (runCalls store calls).1, r.permitted = false) →
      (runCalls store calls).2 = store := by
  intro calls
  induction calls with
  | nil => intro store _; rfl
  | cons c rest ih =>
    intro store h
    obtain ⟨ip, now⟩ := c
    rw [runCalls_cons] at h ⊢
    have h1 : (checkRateLimit store now ip).1 = false := h _ (List.mem_cons_self _ _)
    have hs := check_denied store now ip h1
    simp only
    rw [ih _ (fun r hr => h r (List.mem_cons_of_mem _ hr)), hs]

/-- The result of a call for `a` and the entry of `a` after it depend only on the entry of
`a` before it. -/
theorem check_depends_on_entry (s1 s2 : RateLimitStore) (now : Int) (a : JsString)
    (h : s1 a = s2 a) :
    (checkRateLimit s1 now a).1 = (checkRateLimit s2 now a).1 ∧
    (checkRateLimit s1 now a).2 a = (checkRateLimit s2 now a).2 a := by
  unfold checkRateLimit
  rw [h]
  cases hs : s2 a with
  | none => simp [storeSet]
  | some e =>
    simp only
    split_ifs <;> simp [storeSet, h, hs]

/-- The records of `a` in a run are those of the run of the calls for `a` alone, from any
store with the same entry for `a`. -/
theorem runCalls_project (a : JsString) :
    ∀ (calls : List (JsString × Int)) (s1 s2 : RateLimitStore), s1 a = s2 a →
      (runCalls s1 calls).1.filter (fun r => decide (r.clientIP = a)) =
        (runCalls s2 (calls.filter (fun c => decide (c.1 = a)))).1 := by
  intro calls
  induction calls with
  | nil => intro s1 s2 _; rfl
  | cons c rest ih =>
    intro s1 s2 h
    obtain ⟨ip, now⟩ := c
    by_cases hip : ip = a
    · subst hip
      obtain ⟨hr, hs⟩ := check_depends_on_entry s1 s2 now ip h
      rw [runCalls_cons]
      simp only [List.filter_cons, decide_True, if_true]
      rw [runCalls_cons, hr, ih _ _ hs]
    · rw [runCalls_cons]
      simp only [List.filter_cons, hip, decide_False, Bool.false_eq_true, if_false]
      exact ih _ _ (by rw [check_other s1 now a ip hip]; exact h)

/-- C24. Rate-limit entries are never deleted: after `checkRateLimit` for `a` the addresses
with an entry are those that had one before together with `a`; after any sequence of calls
they are those that had one before together with the addresses called, so an address that has
an entry keeps one. -/
theorem entries_never_deleted :
    (∀ (store : RateLimitStore) (now : Int) (a b : JsString),
      ((checkRateLimit store now a).2 b).isSome = true ↔ ((store b).isSome = true ∨ b = a)) ∧
    (∀ (calls : List (JsString × Int)) (store : RateLimitStore) (b : JsString),
      ((runCalls store calls).2 b).isSome = true ↔
        ((store b).isSome = true ∨ b ∈ calls.map Prod.fst)) ∧
    (∀ (calls : List (JsString × Int)) (store : RateLimitStore) (b : JsString),
      (store b).isSome = true → ((runCalls store calls).2 b).isSome = true) :=
  ⟨check_keys, fun calls store b => runCalls_keys b calls store,
   fun calls store b h => (runCalls_keys b calls store).2 (Or.inl h)⟩

/-- Witness for C24: the exhausted entry of `10.0.0.1` is still there after `burstCalls`. -/
theorem entries_never_deleted_witness :
    ((runCalls exhaustedStore burstCalls).2 (lit "10.0.0.1")).isSome = true :=
  entries_never_deleted.2.2 burstCalls exhaustedStore (lit "10.0.0.1") rfl

/-- C25. Rate-limit table invariant: in every store reached from the empty store by any
sequence of `checkRateLimit` calls (any addresses, any timestamps), every entry has
`1 ≤ count ≤ 5`. -/
theorem count_bounds_reachable (calls : List (JsString × Int)) (b : JsString)
    (e : RateLimitEntry) (h : (runCalls emptyStore calls).2 b = some e) :
    1 ≤ e.count ∧ e.count ≤ 5 :=
  runCalls_count_bounds calls emptyStore (fun b e hb => by simp [emptyStore] at hb) b e h

/-- Witness for C25: the entry of `10.0.0.1` after `burstCalls`. -/
theorem count_bounds_reachable_witness :
    (runCalls emptyStore burstCalls).2 (lit "10.0.0.1") = some ⟨5, 1800001⟩ ∧
    1 ≤ (5 : Nat) ∧ (5 : Nat) ≤ 5 :=
  ⟨by decide, count_bounds_reachable burstCalls (lit "10.0.0.1") ⟨5, 1800001⟩ (by decide)⟩

/-- C26. A denied rate-limit check has no effect: when `checkRateLimit` returns false the
store after the call is the store before it, count and `resetTime` of the address included;
so a sequence of calls that are all denied leaves the store, and with it the window, as it
was. -/
theorem denied_check_no_effect :
    (∀ (store : RateLimitStore) (now : Int) (a : JsString),
      (checkRateLimit store now a).1 = false → (checkRateLimit store now a).2 = store) ∧
    (∀ (calls : List (JsString × Int)) (store : RateLimitStore),
      (∀ r ∈ (runCalls store calls).1, r.permitted = false) →
      (runCalls store calls).2 = store) :=
  ⟨check_denied, runCalls_all_denied⟩

/-- Witness for C26: a denied call at time 1000 on the exhausted store. -/
theorem denied_check_no_effect_witness :
    (checkRateLimit exhaustedStore 1000 (lit "10.0.0.1")).2 = exhaustedStore :=
  denied_check_no_effect.1 exhaustedStore 1000 (lit "10.0.0.1") (by decide)

/-- C27. Per-address isolation: `checkRateLimit` for `a` leaves the entry of every other
address unchanged; and two call sequences run from the same store that contain the same calls
for `a` in the same order give the same records (timestamps and permit or deny results) for
`a`, whatever calls they make for other addresses. -/
theorem per_address_isolation :
    (∀ (store : RateLimitStore) (now : Int) (a b : JsString), b ≠ a →
      (checkRateLimit store now a).2 b = store b) ∧
    (∀ (a : JsString) (store : RateLimitStore) (calls1 calls2 : List (JsString × Int)),
      calls1.filter (fun c => decide (c.1 = a)) = calls2.filter (fun c => decide (c.1 = a)) →
      (runCalls store calls1).1.filter (fun r => decide (r.clientIP = a)) =
        (runCalls store calls2).1.filter (fun r => decide (r.clientIP = a))) := by
  refine ⟨check_frame, ?_⟩
  intro a store calls1 calls2 h
  rw [runCalls_project a calls1 store store rfl, runCalls_project a calls2 store store rfl, h]

/-- Witness for C27: six calls of `10.0.0.1`, alone and interleaved with calls of
`10.0.0.2`. -/
theorem per_address_isolation_witness :
    (runCalls emptyStore [(lit "10.0.0.1", 0), (lit "10.0.0.1", 1), (lit "10.0.0.1", 2),
        (lit "10.0.0.1", 3), (lit "10.0.0.1", 4), (lit "10.0.0.1", 5)]).1.filter
        (fun r => decide (r.clientIP = lit "10.0.0.1")) =
      (runCalls emptyStore [(lit "10.0.0.2", 0), (lit "10.0.0.1", 0), (lit "10.0.0.1", 1),
        (lit "10.0.0.2", 1), (lit "10.0.0.1", 2), (lit "10.0.0.1", 3), (lit "10.0.0.2", 3),
        (lit "10.0.0.1", 4), (lit "10.0.0.1", 5), (lit "10.0.0.2", 9)]).1.filter
        (fun r => decide (r.clientIP = lit "10.0.0.1")) :=
  per_address_isolation.2 (lit "10.0.0.1") emptyStore _ _ (by decide)

end Newsletter

/-! ### Idempotence of trimming and sanitization -/

theorem trim_eq_rdropWhile (s : JsString) :
    trim s = List.rdropWhile isWhiteSpace (s.dropWhile isWhiteSpace) := rfl

theorem trim_length_le (s : JsString) : (trim s).length ≤ s.length := by
  rw [trim_eq_rdropWhile]
  exact le_trans (List.rdropWhile_prefix isWhiteSpace _).length_le
    (List.dropWhile_sublist isWhiteSpace).length_le

/-- A prefix of a list that does not start with white space does not start with white
space. -/
theorem dropWhile_prefix_self (v u : JsString) (h : v <+: u)
    (hu : u.dropWhile isWhiteSpace = u) : v.dropWhile isWhiteSpace = v := by
  cases v with
  | nil => rfl
  | cons x v =>
    obtain ⟨t, rfl⟩ := h
    rw [List.dropWhile_eq_self_iff] at hu ⊢
    intro _
    have := hu (by simp)
    simpa using this

/-- Trimming a trimmed string changes nothing. -/
theorem trim_trim (s : JsString) : trim (trim s) = trim s := by
  have hstart : (trim s).dropWhile isWhiteSpace = trim s :=
    dropWhile_prefix_self _ _ (List.rdropWhile_prefix isWhiteSpace _)
      (List.dropWhile_idempotent _ _)
  conv_lhs => rw [trim_eq_rdropWhile, hstart, trim_eq_rdropWhile]
  rw [List.rdropWhile_idempotent]
  rfl

namespace Newsletter

/-- A second application of `sanitizeInput` only trims. -/
theorem sanitizeInput_twice (s : JsString) :
    sanitizeInput (sanitizeInput s) = trim (sanitizeInput s) := by
  apply sanitizeInput_of_no_angle
  · intro h
    have := sanitizeInput_not_angle s 60 h
    simp [isAngle] at this
  · intro h
    have := sanitizeInput_not_angle s 62 h
    simp [isAngle] at this
  · have h1 : (sanitizeInput s).length ≤ 255 := by
      rw [sanitizeInput_eq]
      exact List.length_take_le _ _
    exact le_trans (trim_length_le _) h1

/-- Counterexample to C29 as stated: on `< a` one application gives ` a` (removing `<`
exposes a blank) and a second application gives `a`. -/
theorem sanitizeInput_not_idempotent :
    sanitizeInput (lit "< a") = lit " a" ∧
    sanitizeInput (sanitizeInput (lit "< a")) = lit "a" ∧
    sanitizeInput (sanitizeInput (lit "< a")) ≠ sanitizeInput (lit "< a") := by
  refine ⟨by decide, by decide, by decide⟩

/-- C29 (amended). For every string `s`, a second application of `sanitizeInput` only trims:
`sanitizeInput (sanitizeInput s) = trim (sanitizeInput s)`; a third application changes
nothing; and `sanitizeInput (sanitizeInput s) = sanitizeInput s` when `s` contains no `<` or
`>` and its trimmed length is at most 255. -/
theorem sanitizeInput_idempotent_after_one (s : JsString) :
    sanitizeInput (sanitizeInput s) = trim (sanitizeInput s) ∧
    sanitizeInput (sanitizeInput (sanitizeInput s)) = sanitizeInput (sanitizeInput s) ∧
    (60 ∉ s → 62 ∉ s → (trim s).length ≤ 255 →
      sanitizeInput (sanitizeInput s) = sanitizeInput s) := by
  refine ⟨sanitizeInput_twice s, ?_, ?_⟩
  · rw [sanitizeInput_twice (sanitizeInput s), sanitizeInput_twice s, trim_trim]
  · intro h60 h62 hlen
    rw [sanitizeInput_twice, sanitizeInput_of_no_angle s h60 h62 hlen, trim_trim]

/-- Witness for C29 (amended): the string ` Ada ` has no `<` or `>`. -/
theorem sanitizeInput_idempotent_after_one_witness :
    sanitizeInput (sanitizeInput (lit " Ada ")) = sanitizeInput (lit " Ada ") :=
  (sanitizeInput_idempotent_after_one (lit " Ada ")).2.2 (by decide) (by decide) (by decide)

/-! ### Shape of the error list -/

/-- A result of `validateInput` is the list of the name messages followed by the list of the
e-mail messages, each read off the value of the property. -/
theorem validateInput_errors (data : JsValue) (r : ValidationResult)
    (h : validateInput data = .ok r) :
    ∃ vn ve, getProp data (lit "name") = .ok vn ∧ getProp data (lit "email") = .ok ve ∧
      r.errors =
        (match vn with
          | .string s =>
            if (trim s).length = 0 then [lit "El nombre es obligatorio"]
            else if (trim s).length > 100 then
              [lit "El nombre no puede exceder 100 caracteres"]
            else []
          | _ => [lit "El nombre es obligatorio"]) ++
        (match ve with
          | .string s =>
            if (trim s).length = 0 then [lit "El email es obligatorio"]
            else if regexTest EMAIL_REGEX (trim s) = false then
              [lit "El formato del email no es válido"]
            else if (trim s).length > 255 then
              [lit "El email no puede exceder 255 caracteres"]
            else []
          | _ => [lit "El email es obligatorio"]) := by
  unfold validateInput at h
  cases hn : getProp data (lit "name") with
  | error err => simp [hn, Except.bind] at h
  | ok vn =>
    cases he : getProp data (lit "email") with
    | error err => simp [hn, he, nameErrors_eq, Except.bind] at h
    | ok ve =>
      simp only [hn, he, nameErrors_eq, emailErrors_eq, Except.bind, Except.ok.injEq] at h
      subst h
      exact ⟨vn, ve, rfl, rfl, rfl⟩

/-- C30. Shape of the validation error list: a result of `validateInput` is at most one
name message followed by at most one e-mail message, so at most two messages; the e-mail
checks are tried in the order missing, format, length and only the first failing one is
reported. The function returns for every parsed body other than `null`. -/
theorem validateInput_error_shape :
    (∀ (data : JsValue) (r : ValidationResult), validateInput data = .ok r →
      ∃ nameErrs emailErrs ve, getProp data (lit "email") = .ok ve ∧
        r.errors = nameErrs ++ emailErrs ∧ r.errors.length ≤ 2 ∧
        (nameErrs = [] ∨ nameErrs = [lit "El nombre es obligatorio"] ∨
          nameErrs = [lit "El nombre no puede exceder 100 caracteres"]) ∧
        (emailErrs = [] ∨ emailErrs = [lit "El email es obligatorio"] ∨
          emailErrs = [lit "El formato del email no es válido"] ∨
          emailErrs = [lit "El email no puede exceder 255 caracteres"]) ∧
        ((¬ ∃ s, ve = .string s ∧ 1 ≤ (trim s).length) →
          emailErrs = [lit "El email es obligatorio"]) ∧
        (∀ s, ve = .string s → 1 ≤ (trim s).length → ¬ MatchesEmailPattern (trim s) →
          emailErrs = [lit "El formato del email no es válido"]) ∧
        (∀ s, ve = .string s → 1 ≤ (trim s).length → MatchesEmailPattern (trim s) →
          255 < (trim s).length → emailErrs = [lit "El email no puede exceder 255 caracteres"]) ∧
        (∀ s, ve = .string s → 1 ≤ (trim s).length → MatchesEmailPattern (trim s) →
          (trim s).length ≤ 255 → emailErrs = [])) ∧
    (∀ data : JsValue, data ≠ .null → data ≠ .undefined → ∃ r, validateInput data = .ok r) := by
  refine ⟨?_, validateInput_total⟩
  intro data r h
  obtain ⟨vn, ve, -, he, herr⟩ := validateInput_errors data r h
  have hN : ∀ v : JsValue,
      (match v with
        | .string s =>
          if (trim s).length = 0 then [lit "El nombre es obligatorio"]
          else if (trim s).length > 100 then
            [lit "El nombre no puede exceder 100 caracteres"]
          else []
        | _ => [lit "El nombre es obligatorio"]) = [] ∨
      (match v with
        | .string s =>
          if (trim s).length = 0 then [lit "El nombre es obligatorio"]
          else if (trim s).length > 100 then
            [lit "El nombre no puede exceder 100 caracteres"]
          else []
        | _ => [lit "El nombre es obligatorio"]) = [lit "El nombre es obligatorio"] ∨
      (match v with
        | .string s =>
          if (trim s).length = 0 then [lit "El nombre es obligatorio"]
          else if (trim s).length > 100 then
            [lit "El nombre no puede exceder 100 caracteres"]
          else []
        | _ => [lit "El nombre es obligatorio"]) =
        [lit "El nombre no puede exceder 100 caracteres"] := by
    intro v
    cases v <;> dsimp only <;> (try split_ifs) <;>
      first
      | exact Or.inl rfl
      | exact Or.inr (Or.inl rfl)
      | exact Or.inr (Or.inr rfl)
  have hE : ∀ v : JsValue,
      (match v with
        | .string s =>
          if (trim s).length = 0 then [lit "El email es obligatorio"]
          else if regexTest EMAIL_REGEX (trim s) = false then
            [lit "El formato del email no es válido"]
          else if (trim s).length > 255 then
            [lit "El email no puede exceder 255 caracteres"]
          else []
        | _ => [lit "El email es obligatorio"]) = [] ∨
      (match v with
        | .string s =>
          if (trim s).length = 0 then [lit "El email es obligatorio"]
          else if regexTest EMAIL_REGEX (trim s) = false then
            [lit "El formato del email no es válido"]
          else if (trim s).length > 255 then
            [lit "El email no puede exceder 255 caracteres"]
          else []
        | _ => [lit "El email es obligatorio"]) = [lit "El email es obligatorio"] ∨
      (match v with
        | .string s =>
          if (trim s).length = 0 then [lit "El email es obligatorio"]
          else if regexTest EMAIL_REGEX (trim s) = false then
            [lit "El formato del email no es válido"]
          else if (trim s).length > 255 then
            [lit "El email no puede exceder 255 caracteres"]
          else []
        | _ => [lit "El email es obligatorio"]) = [lit "El formato del email no es válido"] ∨
      (match v with
        | .string s =>
          if (trim s).length = 0 then [lit "El email es obligatorio"]
          else if regexTest EMAIL_REGEX (trim s) = false then
            [lit "El formato del email no es válido"]
          else if (trim s).length > 255 then
            [lit "El email no puede exceder 255 caracteres"]
          else []
        | _ => [lit "El email es obligatorio"]) =
        [lit "El email no puede exceder 255 caracteres"] := by
    intro v
    cases v <;> dsimp only <;> (try split_ifs) <;>
      first
      | exact Or.inl rfl
      | exact Or.inr (Or.inl rfl)
      | exact Or.inr (Or.inr (Or.inl rfl))
      | exact Or.inr (Or.inr (Or.inr rfl))
  refine ⟨_, _, ve, he, herr, ?_, hN vn, hE ve, ?_, ?_, ?_, ?_⟩
  · rw [herr, List.length_append]
    have h1 : ∀ l : List JsString, (l = [] ∨ l = [lit "El nombre es obligatorio"] ∨
        l = [lit "El nombre no puede exceder 100 caracteres"]) → l.length ≤ 1 := by
      rintro l (h | h | h) <;> simp [h]
    have h2 : ∀ l : List JsString, (l = [] ∨ l = [lit "El email es obligatorio"] ∨
        l = [lit "El formato del email no es válido"] ∨
        l = [lit "El email no puede exceder 255 caracteres"]) → l.length ≤ 1 := by
      rintro l (h | h | h | h) <;> simp [h]
    have := h1 _ (hN vn)
    have := h2 _ (hE ve)
    omega
  · intro hno
    cases ve with
    | string s =>
      have : (trim s).length = 0 := by
        by_contra hne
        exact hno ⟨s, rfl, by omega⟩
      simp [this]
    | _ => rfl
  · intro s hs hlen hpat
    subst hs
    have h0 : ¬ (trim s).length = 0 := by omega
    have hre : regexTest EMAIL_REGEX (trim s) = false := by
      rw [← regexTest_EMAIL_REGEX] at hpat
      simpa using hpat
    simp [h0, hre]
  · intro s hs hlen hpat hlong
    subst hs
    have h0 : ¬ (trim s).length = 0 := by omega
    have hre : regexTest EMAIL_REGEX (trim s) = true := (regexTest_EMAIL_REGEX _).2 hpat
    simp [h0, hre, hlong]
  · intro s hs hlen hpat hshort
    subst hs
    have h0 : ¬ (trim s).length = 0 := by omega
    have hre : regexTest EMAIL_REGEX (trim s) = true := (regexTest_EMAIL_REGEX _).2 hpat
    have hl : ¬ (255 < (trim s).length) := by omega
    simp [h0, hre, hl]

/-- Witness for C30: the empty object gives the two required-field messages, name first. -/
theorem validateInput_error_shape_witness :
    ∃ nameErrs emailErrs,
      [lit "El nombre es obligatorio", lit "El email es obligatorio"] = nameErrs ++ emailErrs ∧
        emailErrs = [lit "El email es obligatorio"] := by
  obtain ⟨ne, ee, ve, hve, herr, -, -, -, hmiss, -⟩ :=
    validateInput_error_shape.1 (.object [])
      ⟨false, [lit "El nombre es obligatorio", lit "El email es obligatorio"]⟩ rfl
  refine ⟨ne, ee, herr, hmiss ?_⟩
  rintro ⟨s, hs, -⟩
  rw [hs] at hve
  cases hve

/-! ### Quota and call counts of the subscription handler -/

/-- The function `submitToListmonk` returns a result for every upstream behaviour. -/
theorem submitToListmonk_total (fetch : Fetch) (name email : JsString) :
    ∃ result, submitToListmonk fetch name email = .ok result := by
  unfold submitToListmonk
  cases submitToListmonkTry fetch name email with
  | error err => exact ⟨_, rfl⟩
  | ok result => exact ⟨result, rfl⟩

/-- The handler on a request over its quota: the 429 response, the store of the check and no
further call. -/
theorem POST_rate_limited (env : Env) (store : RateLimitStore) (request : Request)
    (h : (checkRateLimit store env.now (clientIPOf request)).1 = false) :
    POST env store request =
      { response :=
          { status := 429,
            headers := [(lit "Content-Type", lit "application/json"),
              (lit "Retry-After", lit "900")],
            body := { success := false,
                      error := some
                        (lit "Demasiadas solicitudes. Inténtalo de nuevo en 15 minutos.") } },
        store := (checkRateLimit store env.now (clientIPOf request)).2, log := [] } := by
  unfold POST
  simp [h]

/-- The handler when `validateInput` throws: the 500 response of the outer `catch`. -/
theorem POST_validate_throws (env : Env) (store : RateLimitStore) (request : Request)
    (data : JsValue) (x : JsError)
    (hlim : (checkRateLimit store env.now (clientIPOf request)).1 = true)
    (hj : request.json = .ok data) (hv : validateInput data = .error x) :
    (POST env store request).response = internalErrorResponse ∧
    (POST env store request).log = [.json, .validateInput] := by
  unfold POST
  simp only [hlim, hj, hv, Bool.not_true, Bool.false_eq_true, if_false]
  exact ⟨trivial, trivial⟩

/-- The store left by the handler is the store left by the rate-limit check, whatever the
body and the upstream. -/
theorem POST_store (env : Env) (store : RateLimitStore) (request : Request) :
    (POST env store request).store = (checkRateLimit store env.now (clientIPOf request)).2 := by
  unfold POST
  simp only
  split_ifs
  · rfl
  · split
    · rfl
    · split
      · rfl
      · split_ifs
        · rfl
        · split
          · split
            · split_ifs <;> rfl
            · rfl
          · rfl
          · rfl

/-- Number of upstream calls of the subscription handler: one when the request passes the
rate limit, parses and validates, none otherwise. -/
theorem POST_call_count (env : Env) (store : RateLimitStore) (request : Request) :
    ((checkRateLimit store env.now (clientIPOf request)).1 = true ∧
        (∃ data r, request.json = .ok data ∧ validateInput data = .ok r ∧ r.isValid = true) →
      (POST env store request).log.countP isUpstreamCall = 1) ∧
    (¬ ((checkRateLimit store env.now (clientIPOf request)).1 = true ∧
        (∃ data r, request.json = .ok data ∧ validateInput data = .ok r ∧ r.isValid = true)) →
      (POST env store request).log.countP isUpstreamCall = 0) := by
  constructor
  · rintro ⟨hlim, data, r, hj, hv, hvalid⟩
    obtain ⟨n, e, hn, he, -⟩ := validateInput_valid data r hv hvalid
    obtain ⟨result, hs⟩ := submitToListmonk_total env.fetch (sanitizeInput n) (sanitizeInput e)
    rw [(POST_valid_request env store request data r n e result hlim hj hv hvalid hn he hs).2]
    rfl
  · intro hnot
    cases hlim : (checkRateLimit store env.now (clientIPOf request)).1 with
    | false => rw [POST_rate_limited env store request hlim]; rfl
    | true =>
      cases hj : request.json with
      | error err => rw [((POST_invalid_request env store request hlim).1 err hj).2]; rfl
      | ok data =>
        cases hv : validateInput data with
        | error x => rw [(POST_validate_throws env store request data x hlim hj hv).2]; rfl
        | ok r =>
          cases hvalid : r.isValid with
          | false =>
            rw [((POST_invalid_request env store request hlim).2 data r hj hv hvalid).2]; rfl
          | true => exact absurd ⟨hlim, data, r, hj, hv, hvalid⟩ hnot

/-- Five requests of one address inside the window opened by the first one use up the quota,
whatever their bodies: the store they leave denies a sixth call inside the window. -/
theorem five_requests_exhaust (store : RateLimitStore) (a : JsString)
    (e1 e2 e3 e4 e5 : Env) (r1 r2 r3 r4 r5 : Request) (hnone : store a = none)
    (h1 : clientIPOf r1 = a) (h2 : clientIPOf r2 = a) (h3 : clientIPOf r3 = a)
    (h4 : clientIPOf r4 = a) (h5 : clientIPOf r5 = a)
    (t2 : e2.now ≤ e1.now + 900000) (t3 : e3.now ≤ e1.now + 900000)
    (t4 : e4.now ≤ e1.now + 900000) (t5 : e5.now ≤ e1.now + 900000) :
    (POST e5 (POST e4 (POST e3 (POST e2 (POST e1 store r1).store r2).store r3).store r4).store
        r5).store a = some ⟨5, e1.now + 900000⟩ := by
  have s1 : (POST e1 store r1).store a = some ⟨1, e1.now + 900000⟩ := by
    rw [POST_store, h1, check_none _ _ _ hnone]
    exact storeSet_same _ _ _
  have s2 : (POST e2 (POST e1 store r1).store r2).store a = some ⟨2, e1.now + 900000⟩ := by
    rw [POST_store, h2, check_incr _ _ _ _ s1 t2 (by simp)]
    exact storeSet_same _ _ _
  have s3 : (POST e3 (POST e2 (POST e1 store r1).store r2).store r3).store a =
      some ⟨3, e1.now + 900000⟩ := by
    rw [POST_store, h3, check_incr _ _ _ _ s2 t3 (by simp)]
    exact storeSet_same _ _ _
  have s4 : (POST e4 (POST e3 (POST e2 (POST e1 store r1).store r2).store r3).store r4).store a =
      some ⟨4, e1.now + 900000⟩ := by
    rw [POST_store, h4, check_incr _ _ _ _ s3 t4 (by simp)]
    exact storeSet_same _ _ _
  rw [POST_store, h5, check_incr _ _ _ _ s4 t5 (by simp)]
  exact storeSet_same _ _ _

/-- C28. Quota is consumed before validation: the store left by the subscription handler is
the store left by the rate-limit check, whatever the body; a request that is not denied
starts the count of its address at 1 or increments it, also when it is then rejected; and
after five requests of one address inside a window, whatever their bodies, a sixth request of
that address inside the window gets 429. Five requests with the body `{}` give 400 five times
and the valid sixth request 429. -/
theorem quota_consumed_before_validation :
    (∀ (env : Env) (store : RateLimitStore) (request : Request),
      (POST env store request).store =
        (checkRateLimit store env.now (clientIPOf request)).2) ∧
    (∀ (env : Env) (store : RateLimitStore) (request : Request),
      (checkRateLimit store env.now (clientIPOf request)).1 = true →
      (POST env store request).store (clientIPOf request) =
          some ⟨1, env.now + 900000⟩ ∨
        ∃ e0, store (clientIPOf request) = some e0 ∧
          (POST env store request).store (clientIPOf request) =
            some ⟨e0.count + 1, e0.resetTime⟩) ∧
    (∀ (store : RateLimitStore) (a : JsString) (e1 e2 e3 e4 e5 e6 : Env)
        (r1 r2 r3 r4 r5 r6 : Request), store a = none →
      clientIPOf r1 = a → clientIPOf r2 = a → clientIPOf r3 = a → clientIPOf r4 = a →
      clientIPOf r5 = a → clientIPOf r6 = a →
      e2.now ≤ e1.now + 900000 → e3.now ≤ e1.now + 900000 → e4.now ≤ e1.now + 900000 →
      e5.now ≤ e1.now + 900000 → e6.now ≤ e1.now + 900000 →
      ((handleAll store [(e1, r1), (e2, r2), (e3, r3), (e4, r4), (e5, r5), (e6, r6)]).map
        (fun h => h.response.status))[5]? = some 429) ∧
    (handleAll emptyStore [(sampleEnv, emptyObjectRequest), (sampleEnv, emptyObjectRequest),
        (sampleEnv, emptyObjectRequest), (sampleEnv, emptyObjectRequest),
        (sampleEnv, emptyObjectRequest),
        (sampleEnv, sampleRequest (lit "Test User") (lit "test@example.com"))]).map
      (fun h => h.response.status) = [400, 400, 400, 400, 400, 429] := by
  refine ⟨POST_store, ?_, ?_, by decide⟩
  · intro env store request hlim
    rw [POST_store]
    cases hst : store (clientIPOf request) with
    | none =>
      left
      rw [check_none _ _ _ hst]
      exact storeSet_same _ _ _
    | some e0 =>
      by_cases h1 : e0.resetTime < env.now
      · left
        rw [check_expired _ _ _ e0 hst h1]
        exact storeSet_same _ _ _
      · by_cases h2 : e0.count < 5
        · right
          refine ⟨e0, rfl, ?_⟩
          rw [check_incr _ _ _ e0 hst (by omega) h2]
          exact storeSet_same _ _ _
        · rw [check_full _ _ _ e0 hst (by omega) (by omega)] at hlim
          simp at hlim
  · intro store a e1 e2 e3 e4 e5 e6 r1 r2 r3 r4 r5 r6 hnone h1 h2 h3 h4 h5 h6 t2 t3 t4 t5 t6
    have s5 := five_requests_exhaust store a e1 e2 e3 e4 e5 r1 r2 r3 r4 r5 hnone h1 h2 h3 h4 h5
      t2 t3 t4 t5
    have hden : (checkRateLimit
        (POST e5 (POST e4 (POST e3 (POST e2 (POST e1 store r1).store r2).store r3).store
          r4).store r5).store e6.now (clientIPOf r6)).1 = false := by
      rw [h6, check_full _ _ _ _ s5 t6 (by simp)]
    simp only [handleAll, List.map_cons, List.map_nil]
    rw [POST_rate_limited e6 _ r6 hden]
    rfl

/-- Witness for C28: a request with the body `{}` on the empty store starts the count of its
address at 1 although it is rejected. -/
theorem quota_consumed_before_validation_witness :
    (POST sampleEnv emptyStore emptyObjectRequest).store (clientIPOf emptyObjectRequest) =
        some ⟨1, sampleEnv.now + 900000⟩ ∨
      ∃ e0, emptyStore (clientIPOf emptyObjectRequest) = some e0 ∧
        (POST sampleEnv emptyStore emptyObjectRequest).store (clientIPOf emptyObjectRequest) =
          some ⟨e0.count + 1, e0.resetTime⟩ :=
  quota_consumed_before_validation.2.1 sampleEnv emptyStore emptyObjectRequest (by decide)

end Newsletter

/-! ### Catch and call counts of the contact and checkout handlers -/

namespace Contact

/-- The `catch` of the contact handler: the response of the `try` block when it returns, the
generic 500 when it throws, whatever the exception. -/
theorem contact_POST_of_try (env : Env) (request : Request) :
    (∀ resp, (POSTTry env request).1 = .ok resp → (POST env request).response = resp) ∧
    (∀ x, (POSTTry env request).1 = .error x →
      (POST env request).response = errorResponse 500 (lit "Error procesando la solicitud.")) ∧
    (POST env request).sent = (POSTTry env request).2 := by
  unfold POST
  rcases hP : POSTTry env request with ⟨res, sent⟩
  cases res with
  | ok resp => exact ⟨fun r h => (by cases h; rfl), fun x h => (by cases h), rfl⟩
  | error err => exact ⟨fun r h => (by cases h), fun x h => rfl, rfl⟩

/-- The contact handler sends one message exactly when the body parses, the three fields are
truthy and the message can be built. -/
theorem POST_sent_count (env : Env) (request : Request) :
    (POST env request).sent.length = 1 ↔
      ∃ body asunto descripcion email m, request.json = .ok body ∧
        getProp body (lit "asunto") = .ok asunto ∧
        getProp body (lit "descripcion") = .ok descripcion ∧
        getProp body (lit "email") = .ok email ∧
        toBoolean asunto = true ∧ toBoolean descripcion = true ∧ toBoolean email = true ∧
        buildMessage env.numberToString asunto descripcion email = .ok m := by
  constructor
  · intro hlen
    obtain ⟨-, hmem⟩ := POST_sent_inv env request
    cases hs : (POST env request).sent with
    | nil => rw [hs] at hlen; simp at hlen
    | cons m rest =>
      obtain ⟨body, a, d, e, h⟩ := hmem m (by rw [hs]; exact List.mem_cons_self _ _)
      exact ⟨body, a, d, e, m, h⟩
  · rintro ⟨body, a, d, e, m, hj, ha, hd, he, hta, htd, hte, hb⟩
    have hf : (!toBoolean a || !toBoolean d || !toBoolean e) = false := by
      simp [hta, htd, hte]
    rw [POST_truthy env request body a d e hj ha hd he hf, hb]
    simp only
    cases env.send m with
    | error x => rfl
    | ok r => cases hr : r.error <;> simp [hr]

end Contact

namespace Checkout

/-- The `catch` of the checkout handler: the response of the `try` block when it returns, the
generic 500 when it throws, whatever the exception. -/
theorem checkout_POST_of_try (env : Env) (request : Request) :
    (∀ resp, (POSTTry env request).1 = .ok resp → (POST env request).response = resp) ∧
    (∀ x, (POSTTry env request).1 = .error x →
      (POST env request).response = errorResponse 500 (lit "Stripe error")) ∧
    (POST env request).created = (POSTTry env request).2 := by
  unfold POST
  rcases hP : POSTTry env request with ⟨res, created⟩
  cases res with
  | ok resp => exact ⟨fun r h => (by cases h; rfl), fun x h => (by cases h), rfl⟩
  | error err => exact ⟨fun r h => (by cases h), fun x h => rfl, rfl⟩

/-- The checkout handler calls the payment processor once exactly when the body parses and
`plan` is one of the three strings, and never more than once. -/
theorem POST_created_count (env : Env) (request : Request) :
    (POST env request).created.length ≤ 1 ∧
    ((POST env request).created.length = 1 ↔
      ∃ body p, request.json = .ok body ∧ getProp body (lit "plan") = .ok (.string p) ∧
        p ∈ [lit "mensual", lit "trimestral", lit "anual"]) := by
  cases hj : request.json with
  | error x =>
    have h0 : POST env request =
        { response := errorResponse 500 (lit "Stripe error"), created := [] } := by
      unfold POST POSTTry
      simp only [hj]
    rw [h0]
    refine ⟨by simp, ⟨fun h => (by simp at h), ?_⟩⟩
    rintro ⟨body, p, hb, -⟩
    cases hb
  | ok body =>
    cases hp : getProp body (lit "plan") with
    | error x =>
      have h0 : POST env request =
          { response := errorResponse 500 (lit "Stripe error"), created := [] } := by
        unfold POST POSTTry
        simp only [hj, hp]
      rw [h0]
      refine ⟨by simp, ⟨fun h => (by simp at h), ?_⟩⟩
      rintro ⟨body2, p, hb, hp2, -⟩
      cases hb
      rw [hp] at hp2
      cases hp2
    | ok plan =>
      cases hinc : arrayIncludes [.string (lit "mensual"), .string (lit "trimestral"),
          .string (lit "anual")] plan with
      | false =>
        rw [POST_rejected env request body plan hj hp hinc]
        refine ⟨by simp, ⟨fun h => (by simp at h), ?_⟩⟩
        rintro ⟨body2, p, hb, hp2, hin⟩
        cases hb
        rw [hp] at hp2
        cases hp2
        rw [(includes_plan_iff _).2 ⟨p, rfl, hin⟩] at hinc
        cases hinc
      | true =>
        obtain ⟨p, rfl, hin⟩ := (includes_plan_iff plan).1 hinc
        rw [POST_accepted env request body p hj hp hin]
        cases env.create _ with
        | error x => exact ⟨by simp, ⟨fun _ => ⟨body, p, rfl, hp, hin⟩, fun _ => rfl⟩⟩
        | ok session => exact ⟨by simp, ⟨fun _ => ⟨body, p, rfl, hp, hin⟩, fun _ => rfl⟩⟩

/-- C21. Checkout outcome: for every request with an accepted plan the handler makes one
call; if the payment processor returns a session it answers 200 with body `{url: u}` where
`u` is the `url` of that session (`null` when the session has none); if the call throws, or
parsing the body throws, it answers 500 with body `{error: 'Stripe error'}`. The plan `anual`
against the stub returns the URL of the stub's session. -/
theorem checkout_outcome :
    (∀ (env : Env) (request : Request) (body : JsValue) (p : JsString),
      request.json = .ok body → getProp body (lit "plan") = .ok (.string p) →
      p ∈ [lit "mensual", lit "trimestral", lit "anual"] →
      ∃ params, (POST env request).created = [params] ∧
        (∀ session, env.create params = .ok session →
          (POST env request).response =
            { status := 200, headers := [],
              body := .object [(lit "url",
                match session.url with
                | some u => .string u
                | none => .null)] }) ∧
        (∀ x, env.create params = .error x →
          (POST env request).response =
            { status := 500, headers := [],
              body := .object [(lit "error", .string (lit "Stripe error"))] })) ∧
    (∀ (env : Env) (request : Request) (x : JsError), request.json = .error x →
      (POST env request).response =
        { status := 500, headers := [],
          body := .object [(lit "error", .string (lit "Stripe error"))] }) ∧
    (POST stubEnv (planRequest (lit "anual"))).response =
      { status := 200, headers := [],
        body := .object [(lit "url",
          .string (lit "https://checkout.stripe.com/c/pay/cs_test"))] } := by
  refine ⟨?_, ?_, rfl⟩
  · intro env request body p hj hp hin
    have hex : ∃ params, POST env request =
        match env.create params with
        | .error _ =>
          { response := errorResponse 500 (lit "Stripe error"), created := [params] }
        | .ok session =>
          { response :=
              { status := 200, headers := [],
                body := .object [(lit "url",
                  match session.url with
                  | some u => .string u
                  | none => .null)] },
            created := [params] } := ⟨_, POST_accepted env request body p hj hp hin⟩
    obtain ⟨params, hP⟩ := hex
    refine ⟨params, ?_, ?_, ?_⟩
    · rw [hP]
      cases env.create params <;> rfl
    · intro session hs
      rw [hP, hs]
    · intro x hs
      rw [hP, hs]
      rfl
  · intro env request x hj
    unfold POST POSTTry
    simp only [hj]
    rfl

/-- Witness for C21: the plan `anual` against the stub makes one call. -/
theorem checkout_outcome_witness :
    ∃ params, (POST stubEnv (planRequest (lit "anual"))).created = [params] := by
  obtain ⟨params, h, -⟩ := checkout_outcome.1 stubEnv (planRequest (lit "anual"))
    (.object [(lit "plan", .string (lit "anual"))]) (lit "anual") rfl rfl (by decide)
  exact ⟨params, h⟩

end Checkout

/-! ### All three handlers -/

/-- Counterexample to C22 as stated: the contact request with the fields `trapFields` parses
and its three fields are truthy, yet no message is sent: building the subject throws and the
`catch` answers 500. -/
theorem single_shot_counterexample :
    Contact.trapRequest.json = .ok (.object Contact.trapFields) ∧
    Contact.absentOrFalsy Contact.trapFields (lit "asunto") = false ∧
    Contact.absentOrFalsy Contact.trapFields (lit "descripcion") = false ∧
    Contact.absentOrFalsy Contact.trapFields (lit "email") = false ∧
    (Contact.POST Contact.stubEnv Contact.trapRequest).sent = [] ∧
    (Contact.POST Contact.stubEnv Contact.trapRequest).response =
      Contact.errorResponse 500 (lit "Error procesando la solicitud.") :=
  ⟨rfl, rfl, rfl, rfl, rfl, rfl⟩

/-- C22 (amended). Single-shot relays: for every request each handler makes at most one call
to its upstream, whatever the upstream answers. The subscription handler makes exactly one
when the request passes the rate limit, the body parses and `validateInput` accepts it; the
contact handler exactly one when the body parses, the three fields are truthy and the message
can be built from them; the checkout handler exactly one when the body parses and `plan` is
one of the three strings; otherwise none. -/
theorem single_shot_relays :
    (∀ (env : Newsletter.Env) (store : Newsletter.RateLimitStore)
        (request : Newsletter.Request),
      (Newsletter.POST env store request).log.countP Newsletter.isUpstreamCall ≤ 1 ∧
      ((Newsletter.POST env store request).log.countP Newsletter.isUpstreamCall = 1 ↔
        ((Newsletter.checkRateLimit store env.now (Newsletter.clientIPOf request)).1 = true ∧
          ∃ data r, request.json = .ok data ∧ Newsletter.validateInput data = .ok r ∧
            r.isValid = true))) ∧
    (∀ (env : Contact.Env) (request : Contact.Request),
      (Contact.POST env request).sent.length ≤ 1 ∧
      ((Contact.POST env request).sent.length = 1 ↔
        ∃ body asunto descripcion email m, request.json = .ok body ∧
          getProp body (lit "asunto") = .ok asunto ∧
          getProp body (lit "descripcion") = .ok descripcion ∧
          getProp body (lit "email") = .ok email ∧
          toBoolean asunto = true ∧ toBoolean descripcion = true ∧ toBoolean email = true ∧
          Contact.buildMessage env.numberToString asunto descripcion email = .ok m)) ∧
    (∀ (env : Checkout.Env) (request : Checkout.Request),
      (Checkout.POST env request).created.length ≤ 1 ∧
      ((Checkout.POST env request).created.length = 1 ↔
        ∃ body p, request.json = .ok body ∧ getProp body (lit "plan") = .ok (.string p) ∧
          p ∈ [lit "mensual", lit "trimestral", lit "anual"])) := by
  refine ⟨?_, ?_, Checkout.POST_created_count⟩
  · intro env store request
    obtain ⟨h1, h0⟩ := Newsletter.POST_call_count env store request
    by_cases hp : (Newsletter.checkRateLimit store env.now
        (Newsletter.clientIPOf request)).1 = true ∧
        ∃ data r, request.json = .ok data ∧ Newsletter.validateInput data = .ok r ∧
          r.isValid = true
    · exact ⟨by rw [h1 hp], fun _ => hp, fun _ => h1 hp⟩
    · refine ⟨by rw [h0 hp]; exact Nat.zero_le _, fun h => ?_, fun h => absurd h hp⟩
      rw [h0 hp] at h
      cases h
  · intro env request
    exact ⟨(Contact.POST_sent_inv env request).1, Contact.POST_sent_count env request⟩

/-- C23. Handlers are total and do not leak internals: each handler is the `try` block with
its `catch`; when the `try` block of the contact or checkout handler throws, the response is
the fixed 500 with the generic message, whatever the exception, and otherwise the response of
the block; in the subscription handler an exception of `validateInput` gives the fixed 500 with
the internal-error message, and every 500 it returns is that response. -/
theorem handlers_catch_all :
    (∀ (env : Contact.Env) (request : Contact.Request),
      (∀ resp, (Contact.POSTTry env request).1 = .ok resp →
        (Contact.POST env request).response = resp) ∧
      (∀ x, (Contact.POSTTry env request).1 = .error x →
        (Contact.POST env request).response =
          { status := 500, headers := [],
            body := .object
              [(lit "error", .string (lit "Error procesando la solicitud."))] })) ∧
    (∀ (env : Checkout.Env) (request : Checkout.Request),
      (∀ resp, (Checkout.POSTTry env request).1 = .ok resp →
        (Checkout.POST env request).response = resp) ∧
      (∀ x, (Checkout.POSTTry env request).1 = .error x →
        (Checkout.POST env request).response =
          { status := 500, headers := [],
            body := .object [(lit "error", .string (lit "Stripe error"))] })) ∧
    (∀ (env : Newsletter.Env) (store : Newsletter.RateLimitStore)
        (request : Newsletter.Request) (data : JsValue) (x : JsError),
      (Newsletter.checkRateLimit store env.now (Newsletter.clientIPOf request)).1 = true →
      request.json = .ok data → Newsletter.validateInput data = .error x →
      (Newsletter.POST env store request).response =
        { status := 500, headers := [(lit "Content-Type", lit "application/json")],
          body := { success := false,
                    error := some
                      (lit "Error interno del servidor. Inténtalo de nuevo más tarde.") } }) ∧
    (∀ (env : Newsletter.Env) (store : Newsletter.RateLimitStore)
        (request : Newsletter.Request),
      (Newsletter.POST env store request).response.status = 500 →
      (Newsletter.POST env store request).response =
        { status := 500, headers := [(lit "Content-Type", lit "application/json")],
          body := { success := false,
                    error := some
                      (lit "Error interno del servidor. Inténtalo de nuevo más tarde.") } }) := by
  refine ⟨?_, ?_, ?_, ?_⟩
  · intro env request
    exact ⟨(Contact.contact_POST_of_try env request).1,
      (Contact.contact_POST_of_try env request).2.1⟩
  · intro env request
    exact ⟨(Checkout.checkout_POST_of_try env request).1,
      (Checkout.checkout_POST_of_try env request).2.1⟩
  · intro env store request data x hlim hj hv
    exact (Newsletter.POST_validate_throws env store request data x hlim hj hv).1
  · intro env store request h500
    cases hlim : (Newsletter.checkRateLimit store env.now
        (Newsletter.clientIPOf request)).1 with
    | false =>
      rw [Newsletter.POST_rate_limited env store request hlim] at h500
      simp at h500
    | true =>
      cases hj : request.json with
      | error err =>
        rw [((Newsletter.POST_invalid_request env store request hlim).1 err hj).1] at h500
        simp [Newsletter.jsonResponse] at h500
      | ok data =>
        cases hv : Newsletter.validateInput data with
        | error x =>
          exact (Newsletter.POST_validate_throws env store request data x hlim hj hv).1
        | ok r =>
          cases hvalid : r.isValid with
          | false =>
            rw [((Newsletter.POST_invalid_request env store request hlim).2 data r hj hv
              hvalid).1] at h500
            simp [Newsletter.jsonResponse] at h500
          | true =>
            obtain ⟨n, e, hn, he, -⟩ := Newsletter.validateInput_valid data r hv hvalid
            obtain ⟨result, hs⟩ := Newsletter.submitToListmonk_total env.fetch
              (Newsletter.sanitizeInput n) (Newsletter.sanitizeInput e)
            rw [(Newsletter.POST_valid_request env store request data r n e result hlim hj hv
              hvalid hn he hs).1] at h500
            split_ifs at h500 <;> simp [Newsletter.jsonResponse] at h500

/-- Witness for C23: the subscription request with the body `null` gets the fixed 500. -/
theorem handlers_catch_all_witness :
    (Newsletter.POST Newsletter.sampleEnv Newsletter.emptyStore
        Newsletter.nullBodyRequest).response =
      { status := 500, headers := [(lit "Content-Type", lit "application/json")],
        body := { success := false,
                  error := some
                    (lit "Error interno del servidor. Inténtalo de nuevo más tarde.") } } :=
  handlers_catch_all.2.2.1 Newsletter.sampleEnv Newsletter.emptyStore
    Newsletter.nullBodyRequest .null .typeError rfl rfl rfl

end CodingPit
